import Mathlib

/-!
Verification of the sudoku reproducible-artifact pipeline against its
specification.  The Python sources under `src/` are shallowly embedded:
pure helpers become Lean functions on `Nat`/`Int`/`String`/lists, Python
dicts become association lists with unique keys, fallible code returns
`Except`, and external collaborators (wall clock, git, platform, uuid)
become explicit parameters.
-/

namespace Sudoku

/-! ## SHA-256 (embedding of `hashlib.sha256` as used by the sources)

Bytes are natural numbers below 256; 32-bit words are naturals reduced
modulo `2^32` at every operation. -/

def w32 : Nat := 4294967296

def rotr (n x : Nat) : Nat := ((x >>> n) ||| (x <<< (32 - n))) % w32

def shaCh (x y z : Nat) : Nat := (x &&& y) ^^^ ((x ^^^ 0xffffffff) &&& z)

def shaMaj (x y z : Nat) : Nat := (x &&& y) ^^^ (x &&& z) ^^^ (y &&& z)

def bigSigma0 (x : Nat) : Nat := rotr 2 x ^^^ rotr 13 x ^^^ rotr 22 x

def bigSigma1 (x : Nat) : Nat := rotr 6 x ^^^ rotr 11 x ^^^ rotr 25 x

def smallSigma0 (x : Nat) : Nat := rotr 7 x ^^^ rotr 18 x ^^^ (x >>> 3)

def smallSigma1 (x : Nat) : Nat := rotr 17 x ^^^ rotr 19 x ^^^ (x >>> 10)

def shaK : List Nat :=
  [1116352408, 1899447441, 3049323471, 3921009573, 961987163, 1508970993,
   2453635748, 2870763221, 3624381080, 310598401, 607225278, 1426881987,
   1925078388, 2162078206, 2614888103, 3248222580, 3835390401, 4022224774,
   264347078, 604807628, 770255983, 1249150122, 1555081692, 1996064986,
   2554220882, 2821834349, 2952996808, 3210313671, 3336571891, 3584528711,
   113926993, 338241895, 666307205, 773529912, 1294757372, 1396182291,
   1695183700, 1986661051, 2177026350, 2456956037, 2730485921, 2820302411,
   3259730800, 3345764771, 3516065817, 3600352804, 4094571909, 275423344,
   430227734, 506948616, 659060556, 883997877, 958139571, 1322822218,
   1537002063, 1747873779, 1955562222, 2024104815, 2227730452, 2361852424,
   2428436474, 2756734187, 3204031479, 3329325298]

def shaH0 : List Nat :=
  [1779033703, 3144134277, 1013904242, 2773480762,
   1359893119, 2600822924, 528734635, 1541459225]

/-- Big-endian byte decomposition of `x` into `n` bytes. -/
def natToBeBytes (n x : Nat) : List Nat :=
  (List.range n).reverse.map (fun i => (x >>> (8 * i)) % 256)

/-- Big-endian unsigned integer formed from a list of bytes. -/
def beBytesToNat (bs : List Nat) : Nat :=
  bs.foldl (fun acc b => acc * 256 + b) 0

/-- SHA-256 padding: `0x80`, zeros to 56 mod 64, then the 64-bit big-endian
bit length. -/
def shaPad (msg : List Nat) : List Nat :=
  let L := msg.length
  let zeros := (64 - ((L + 9) % 64)) % 64
  msg ++ [0x80] ++ List.replicate zeros 0 ++ natToBeBytes 8 ((8 * L) % (2 ^ 64))

def toBlocksAux : Nat → List Nat → List (List Nat)
  | _, [] => []
  | 0, _ :: _ => []
  | fuel + 1, l => l.take 64 :: toBlocksAux fuel (l.drop 64)

def toBlocks (l : List Nat) : List (List Nat) := toBlocksAux l.length l

def wordsOfBlockAux : Nat → List Nat → List Nat
  | _, [] => []
  | 0, _ :: _ => []
  | fuel + 1, l => beBytesToNat (l.take 4) :: wordsOfBlockAux fuel (l.drop 4)

/-- Group a 64-byte block into sixteen 32-bit big-endian words. -/
def wordsOfBlock (l : List Nat) : List Nat := wordsOfBlockAux l.length l

def extendWAux : Nat → List Nat → List Nat
  | 0, w => w
  | fuel + 1, w =>
    if 64 ≤ w.length then w
    else
      let n := w.length
      extendWAux fuel (w ++ [(smallSigma1 (w.getD (n - 2) 0) + w.getD (n - 7) 0 +
        smallSigma0 (w.getD (n - 15) 0) + w.getD (n - 16) 0) % w32])

/-- Extend the sixteen schedule words to sixty-four. -/
def extendW (w : List Nat) : List Nat := extendWAux 64 w

/-- One round of the SHA-256 compression function.  The state is the tuple
`(a, b, c, d, e, f, g, h)`. -/
def shaRound (st : Nat × Nat × Nat × Nat × Nat × Nat × Nat × Nat) (kw : Nat × Nat) :
    Nat × Nat × Nat × Nat × Nat × Nat × Nat × Nat :=
  let (a, b, c, d, e, f, g, h) := st
  let t1 := (h + bigSigma1 e + shaCh e f g + kw.1 + kw.2) % w32
  let t2 := (bigSigma0 a + shaMaj a b c) % w32
  ((t1 + t2) % w32, a, b, c, (d + t1) % w32, e, f, g)

def compressBlock (H : List Nat) (block : List Nat) : List Nat :=
  let W := extendW (wordsOfBlock block)
  let init := (H.getD 0 0, H.getD 1 0, H.getD 2 0, H.getD 3 0,
               H.getD 4 0, H.getD 5 0, H.getD 6 0, H.getD 7 0)
  let (a, b, c, d, e, f, g, h) := (shaK.zip W).foldl shaRound init
  List.zipWith (fun x y => (x + y) % w32) H [a, b, c, d, e, f, g, h]

/-- SHA-256 digest of a byte list, as a list of 32 bytes. -/
def sha256 (msg : List Nat) : List Nat :=
  (((toBlocks (shaPad msg)).foldl compressBlock shaH0).map (natToBeBytes 4)).flatten

def hexChar (n : Nat) : Char :=
  if n < 10 then Char.ofNat (48 + n) else Char.ofNat (87 + n)

/-- Lowercase hexadecimal rendering of a byte list. -/
def bytesToHex (bs : List Nat) : String :=
  ⟨(bs.map (fun b => [hexChar (b / 16), hexChar (b % 16)])).flatten⟩

/-- Lowercase hex SHA-256 digest of a byte list (`hashlib.sha256(x).hexdigest()`). -/
def sha256hex (msg : List Nat) : String := bytesToHex (sha256 msg)

/-! ## UTF-8 encoding (embedding of Python `str.encode("utf-8")`). -/

def utf8Char (c : Char) : List Nat :=
  let n := c.toNat
  if n < 0x80 then [n]
  else if n < 0x800 then [0xC0 ||| (n >>> 6), 0x80 ||| (n &&& 0x3F)]
  else if n < 0x10000 then
    [0xE0 ||| (n >>> 12), 0x80 ||| ((n >>> 6) &&& 0x3F), 0x80 ||| (n &&& 0x3F)]
  else
    [0xF0 ||| (n >>> 18), 0x80 ||| ((n >>> 12) &&& 0x3F),
     0x80 ||| ((n >>> 6) &&& 0x3F), 0x80 ||| (n &&& 0x3F)]

def utf8 (s : String) : List Nat := (s.data.map utf8Char).flatten

/-! ## JSON values

Python objects handled by the artifact pipeline: `None`, booleans,
integers, strings, lists and dicts.  Dicts are association lists in
insertion order (`JPairs` nested inside values, plain `List (String × JVal)`
at artifact top level); real Python dicts never carry duplicate keys,
which is assumed as a `Nodup` hypothesis where it matters.  The mutual
shape keeps every function on values structurally recursive and therefore
computable by the kernel. -/

mutual

inductive JVal where
  | jnull : JVal
  | jbool (b : Bool) : JVal
  | jint (n : Int) : JVal
  | jstr (s : String) : JVal
  | jarr (l : JList) : JVal
  | jobj (l : JPairs) : JVal

inductive JList where
  | nil : JList
  | cons (hd : JVal) (tl : JList) : JList

inductive JPairs where
  | nil : JPairs
  | cons (k : String) (v : JVal) (tl : JPairs) : JPairs

end

mutual

def beqJ : JVal → JVal → Bool
  | .jnull, .jnull => true
  | .jbool a, .jbool b => a == b
  | .jint a, .jint b => a == b
  | .jstr a, .jstr b => a == b
  | .jarr a, .jarr b => beqL a b
  | .jobj a, .jobj b => beqP a b
  | _, _ => false

def beqL : JList → JList → Bool
  | .nil, .nil => true
  | .cons a as, .cons b bs => beqJ a b && beqL as bs
  | _, _ => false

def beqP : JPairs → JPairs → Bool
  | .nil, .nil => true
  | .cons k v r, .cons k' v' r' => k == k' && beqJ v v' && beqP r r'
  | _, _ => false

end

def JList.toList : JList → List JVal
  | .nil => []
  | .cons x r => x :: JList.toList r

def JList.ofList : List JVal → JList
  | [] => .nil
  | x :: r => .cons x (JList.ofList r)

def JPairs.toList : JPairs → List (String × JVal)
  | .nil => []
  | .cons k v r => (k, v) :: JPairs.toList r

def JPairs.ofList : List (String × JVal) → JPairs
  | [] => .nil
  | (k, v) :: r => .cons k v (JPairs.ofList r)

/-- `dict.get` on a nested Python dict (keys unique). -/
def JPairs.get (l : JPairs) (k : String) : Option JVal :=
  (JPairs.toList l).lookup k

/-- Python string comparison: lexicographic by Unicode code point. -/
def charListLt : List Char → List Char → Bool
  | [], [] => false
  | [], _ :: _ => true
  | _ :: _, [] => false
  | a :: as, b :: bs => if a < b then true else if b < a then false else charListLt as bs

def strLt (a b : String) : Bool := charListLt a.data b.data

/-- Sort an association list by key, mirroring Python `sorted(...)` /
`json.dumps(..., sort_keys=True)` key ordering. -/
def sortByKey {α : Type} (l : List (String × α)) : List (String × α) :=
  List.insertionSort (fun p q => strLt q.1 p.1 = false) l

/-! ## Canonical serialization (embedding of `artifacts/artifact_store.py`
and `contracts/jsoncanon.py`)

`serialize` mirrors `json.dumps(·, sort_keys=True, separators=(",", ":"),
ensure_ascii=False)` for the value types above; `normalizeJ` mirrors
`artifact_store._normalize`, parameterised by the Unicode NFC
normalisation function (the external `unicodedata` library).  Where
`json.dumps` sorts the keys of a mapping and then serialises each entry,
the embedding serialises entries first and then sorts by the raw key;
keys are carried unserialised, so the resulting order and output bytes
are the same. -/

/-- One character of a JSON string body, as escaped by `json.dumps` with
`ensure_ascii=False`. -/
def escChar (c : Char) : String :=
  if c = '"' then "\\\""
  else if c = '\\' then "\\\\"
  else if c = '\n' then "\\n"
  else if c = '\r' then "\\r"
  else if c = '\t' then "\\t"
  else if c.toNat = 8 then "\\b"
  else if c.toNat = 12 then "\\f"
  else if c.toNat < 32 then "\\u00" ++ ⟨[hexChar (c.toNat / 16), hexChar (c.toNat % 16)]⟩
  else String.singleton c

def serStr (s : String) : String := "\"" ++ String.join (s.data.map escChar) ++ "\""

mutual

/-- `json.dumps(·, sort_keys=True, separators=(",", ":"), ensure_ascii=False)`. -/
def serialize : JVal → String
  | .jnull => "null"
  | .jbool true => "true"
  | .jbool false => "false"
  | .jint n => toString n
  | .jstr s => serStr s
  | .jarr l => "[" ++ String.intercalate "," (serializeL l) ++ "]"
  | .jobj l => "\x7b" ++ String.intercalate ","
      ((sortByKey (serializeP l)).map (fun kv => serStr kv.1 ++ ":" ++ kv.2)) ++ "\x7d"

def serializeL : JList → List String
  | .nil => []
  | .cons x r => serialize x :: serializeL r

def serializeP : JPairs → List (String × String)
  | .nil => []
  | .cons k v r => (k, serialize v) :: serializeP r

end

mutual

/-- `artifact_store._normalize`: recursively sort mapping keys, apply NFC to
strings, leave other scalars untouched.  Mapping keys are *not* normalised
(the source applies only `str(k)` to them). -/
def normalizeJ (nfc : String → String) : JVal → JVal
  | .jnull => .jnull
  | .jbool b => .jbool b
  | .jint n => .jint n
  | .jstr s => .jstr (nfc s)
  | .jarr l => .jarr (normalizeL nfc l)
  | .jobj l => .jobj (JPairs.ofList (sortByKey (normalizeP nfc l)))

def normalizeL (nfc : String → String) : JList → JList
  | .nil => .nil
  | .cons x r => .cons (normalizeJ nfc x) (normalizeL nfc r)

def normalizeP (nfc : String → String) : JPairs → List (String × JVal)
  | .nil => []
  | .cons k v r => (k, normalizeJ nfc v) :: normalizeP nfc r

end

/-- `artifact_store.canonicalize` applied to a top-level artifact mapping. -/
def canonicalize (nfc : String → String) (l : List (String × JVal)) : List Nat :=
  utf8 (serialize (normalizeJ nfc (.jobj (JPairs.ofList l))))

/-- `artifact_store.compute_artifact_id`: drop the `artifact_id` key,
canonicalize, hash, prefix.  The deep copy taken by the source is implicit
in the purely functional embedding, so the argument is never mutated. -/
def computeArtifactId (nfc : String → String) (l : List (String × JVal)) : String :=
  "sha256-" ++ sha256hex (canonicalize nfc (l.filter (fun p => ¬(p.1 == "artifact_id"))))

/-- `contracts/jsoncanon.jcs_dump`: like `canonicalize` but with no NFC
normalisation of strings (that module passes strings through unchanged). -/
def jcsDump (j : JVal) : List Nat := utf8 (serialize (normalizeJ (fun s => s) j))

/-- `contracts/jsoncanon.jcs_sha256`. -/
def jcsSha256 (j : JVal) : String := "sha256-" ++ sha256hex (jcsDump j)

/-- Modelled from the spec: Unicode NFC normalisation performed by the
external `unicodedata.normalize("NFC", ·)` library, which is not part of
this repository.  Only the canonical composition U+0065 U+0301 (letter e
followed by combining acute accent) into U+00E9 (precomposed e-acute) is
modelled; it is a true NFC composition pair, and the model is the identity
on all other sequences. -/
def nfcModel (s : String) : String := ⟨nfcCompose s.data⟩
where nfcCompose : List Char → List Char
  | 'e' :: '\u0301' :: r => '\u00e9' :: nfcCompose r
  | c :: r => c :: nfcCompose r
  | [] => []

/-! ## Decidable equality for JSON values. -/

mutual

theorem beqJ_iff : ∀ (a b : JVal), beqJ a b = true ↔ a = b
  | .jnull, b => by cases b <;> simp [beqJ]
  | .jbool x, b => by cases b <;> simp [beqJ]
  | .jint n, b => by cases b <;> simp [beqJ]
  | .jstr s, b => by cases b <;> simp [beqJ]
  | .jarr l, b => by cases b <;> simp [beqJ, beqL_iff l _]
  | .jobj l, b => by cases b <;> simp [beqJ, beqP_iff l _]

theorem beqL_iff : ∀ (a b : JList), beqL a b = true ↔ a = b
  | .nil, b => by cases b <;> simp [beqL]
  | .cons x xs, b => by cases b <;> simp [beqL, beqJ_iff x _, beqL_iff xs _]

theorem beqP_iff : ∀ (a b : JPairs), beqP a b = true ↔ a = b
  | .nil, b => by cases b <;> simp [beqP]
  | .cons k v r, b => by cases b <;> simp [beqP, beqJ_iff v _, beqP_iff r _, and_assoc]

end

instance : DecidableEq JVal := fun a b => decidable_of_iff _ (beqJ_iff a b)

instance : DecidableEq JList := fun a b => decidable_of_iff _ (beqL_iff a b)

instance : DecidableEq JPairs := fun a b => decidable_of_iff _ (beqP_iff a b)

mutual

/-- Recursively sort every mapping inside a value by raw key.  Together
with structural equality this realises Python `==` on the embedded
values: two Python dicts are equal exactly when they hold the same keys
with `==`-equal values, irrespective of insertion order, and dict keys
are unique. -/
def canonSortJ : JVal → JVal
  | .jnull => .jnull
  | .jbool b => .jbool b
  | .jint n => .jint n
  | .jstr s => .jstr s
  | .jarr l => .jarr (canonSortL l)
  | .jobj l => .jobj (JPairs.ofList (sortByKey (canonSortP l)))

def canonSortL : JList → JList
  | .nil => .nil
  | .cons x r => .cons (canonSortJ x) (canonSortL r)

def canonSortP : JPairs → List (String × JVal)
  | .nil => []
  | .cons k v r => (k, canonSortJ v) :: canonSortP r

end

/-- Python `==` on embedded values (order-insensitive on dicts). -/
def pyEq (a b : JVal) : Bool := canonSortJ a == canonSortJ b

/-- Python `==` on `Optional` values (`artifact.get(k) == other.get(k)`). -/
def pyEqO : Option JVal → Option JVal → Bool
  | none, none => true
  | some a, some b => pyEq a b
  | _, _ => false

/-! ## Sampling primitive (embedding of `orchestrator/sampling.py`)

`Decimal` rates are embedded as rationals; `Decimal` arithmetic on the
values involved is exact, and `to_integral_value(ROUND_DOWN)` truncates
toward zero, which on the positive rates reaching that line is the floor. -/

/-- `sampling._materialise`. -/
def materialise (hash_salt : Option String) (run_id : String) (puzzle_digest : Option String)
    (sticky : Bool) : List Nat :=
  utf8 (String.join ([hash_salt.getD ""] ++ (if sticky then [] else [run_id]) ++
    ["sudoku", "shadow", puzzle_digest.getD ""]))

/-- `sampling.hit`. -/
def hit (hash_salt : Option String) (run_id : String) (puzzle_digest : Option String)
    (rate : ℚ) (sticky : Bool) : Bool :=
  if rate ≤ 0 then false
  else if 1 ≤ rate then true
  else
    let digest := sha256 (materialise hash_salt run_id puzzle_digest sticky)
    let u64 := beBytesToNat (digest.take 8)
    decide ((u64 : ℤ) < ⌊rate * 2 ^ 64⌋)

/-! ## Event log (embedding of `orchestrator/log.py`)

Only the payload computation of `append_event` is embedded; the file
rotation, locking and the final `json.dumps(payload, sort_keys=True,
ensure_ascii=False) + "\n"` write are I/O on that payload.  The current
UTC wall-clock reading is the explicit `now` parameter. -/

/-- The mapping serialised to the JSONL line by `log.append_event`:
a copy of the event with `ts` defaulted to the wall clock when absent. -/
def appendEventPayload (now : String) (event : List (String × JVal)) :
    List (String × JVal) :=
  if (event.lookup "ts").isSome then event else event ++ [("ts", .jstr now)]

/-! ## Validation Center data model (embedding of `contracts/errors.py`,
`contracts/profiles.py`). -/

/-- A Python dict at artifact top level: association list with unique keys. -/
abbrev Obj := List (String × JVal)

structure ValidationIssue where
  code : String
  msg : String
  path : String
  severity : String
deriving DecidableEq

def makeError (code msg path : String) : ValidationIssue :=
  ⟨code, msg, path, "ERROR"⟩

def makeWarning (code msg path : String) : ValidationIssue :=
  ⟨code, msg, path, "WARN"⟩

structure ProfileConfig where
  name : String
  check_schema : Bool := true
  check_invariants : Bool := true
  check_crossrefs : Bool := true
  warn_as_error : Bool := false
  invariant_rules : List (String × List String) := []
  crossref_rules : List (String × List String) := []
  severity_overrides : List (String × List (String × String)) := []

def ProfileConfig.isInvariantEnabled (p : ProfileConfig) (t rule : String) : Bool :=
  match p.invariant_rules.lookup t with
  | none => true
  | some rules => rules.contains rule

def ProfileConfig.isCrossrefEnabled (p : ProfileConfig) (t rule : String) : Bool :=
  match p.crossref_rules.lookup t with
  | none => true
  | some rules => rules.contains rule

/-- `ProfileConfig.apply_overrides`: the general `"*"` table is updated by
the type-specific table (last writer wins), then the issue severity is
remapped when the tables request a different one. -/
def ProfileConfig.applyOverride (p : ProfileConfig) (t : String) (i : ValidationIssue) :
    ValidationIssue :=
  let general := (p.severity_overrides.lookup "*").getD []
  let specific := (p.severity_overrides.lookup t).getD []
  let desired := match specific.lookup i.code with
    | some d => some d
    | none => general.lookup i.code
  match desired with
  | some d => if d ≠ i.severity then { i with severity := d } else i
  | none => i

def devRules : List (String × List String) :=
  [("Spec", ["spec_size", "spec_alphabet_length", "spec_alphabet_unique", "spec_solver_timeout"]),
   ("CompleteGrid", ["grid_encoding", "grid_length", "grid_symbols", "grid_canonical_hash"]),
   ("Verdict", ["verdict_xor", "verdict_unique", "verdict_time", "verdict_cutoff"]),
   ("ExportBundle", ["bundle_format"])]

def devCrossrefs : List (String × List String) :=
  [("CompleteGrid", ["spec_ref_exists"]),
   ("Verdict", ["spec_ref_exists", "verdict_refs_exist"]),
   ("ExportBundle", ["bundle_inputs_exist", "bundle_types_match", "bundle_spec_consistency"])]

def prodInvariants : List (String × List String) :=
  [("Spec", ["spec_size", "spec_alphabet_length", "spec_alphabet_unique", "spec_solver_timeout"]),
   ("CompleteGrid", ["grid_encoding", "grid_length", "grid_symbols"]),
   ("Verdict", ["verdict_xor", "verdict_unique", "verdict_time", "verdict_cutoff"]),
   ("ExportBundle", ["bundle_format"])]

def devProfile : ProfileConfig :=
  { name := "dev", invariant_rules := devRules, crossref_rules := devCrossrefs }

def ciProfile : ProfileConfig :=
  { name := "ci", warn_as_error := true, invariant_rules := devRules,
    crossref_rules := devCrossrefs }

def prodProfile : ProfileConfig :=
  { name := "prod", invariant_rules := prodInvariants, crossref_rules := devCrossrefs,
    severity_overrides := [("Verdict", [("verdict.cutoff.invalid", "WARN")])] }

/-! ## Rulebook (embedding of `contracts/rulebook.py`)

Artifacts reaching the rules are Python dicts; `artifact.get(k)` is
association-list lookup, where an absent key and an explicit JSON `null`
both read back as Python `None`.  `isinstance(x, int)` admits Python
booleans, which `asPyInt` mirrors.  Interpolated `repr` text inside
messages is approximated (claims depend on issue codes, not wording). -/

/-- Value of `x` under `isinstance(x, int)` (booleans included). -/
def asPyInt : JVal → Option Int
  | .jint n => some n
  | .jbool b => some (if b then 1 else 0)
  | _ => none

def asPyIntO : Option JVal → Option Int
  | some v => asPyInt v
  | none => none

/-- `x is None` for the result of `dict.get`. -/
def isNoneO : Option JVal → Bool
  | none => true
  | some .jnull => true
  | _ => false

/-- Non-empty-string test `isinstance(x, str) and x`. -/
def nonemptyStr : Option JVal → Option String
  | some (.jstr s) => if s = "" then none else some s
  | _ => none

def reprPyO : Option JVal → String
  | none => "None"
  | some .jnull => "None"
  | some (.jbool true) => "True"
  | some (.jbool false) => "False"
  | some (.jint n) => toString n
  | some (.jstr s) => "\x27" ++ s ++ "\x27"
  | some (.jarr _) => "[...]"
  | some (.jobj _) => "\x7b...\x7d"

def specSize (a : Obj) (_spec : Option Obj) (_p : ProfileConfig) : List ValidationIssue :=
  let size := a.lookup "size"
  let block := (a.lookup "block").getD (.jobj .nil)
  let rows : Option JVal := match block with | .jobj p => p.get "rows" | _ => none
  let cols : Option JVal := match block with | .jobj p => p.get "cols" | _ => none
  match asPyIntO size with
  | none => [makeError "type.mismatch" "Spec.size must be an integer" "$.size"]
  | some n =>
    match asPyIntO rows, asPyIntO cols with
    | some r, some c =>
      if n ≠ r * c then
        [makeError "invariant.spec.size_block_mismatch"
          ("size " ++ toString n ++ " does not match block dimensions " ++
            toString r ++ "x" ++ toString c) "$.size"]
      else []
    | _, _ =>
      [makeError "envelope.missing_field" "block.rows and block.cols must be integers" "$.block"]

def specAlphabetLength (a : Obj) (_spec : Option Obj) (_p : ProfileConfig) :
    List ValidationIssue :=
  match a.lookup "alphabet" with
  | some (.jarr l) =>
    match asPyIntO (a.lookup "size") with
    | none => [makeError "type.mismatch" "Spec.size must be an integer" "$.size"]
    | some n =>
      if ((l.toList.length : Int) ≠ n) then
        [makeError "invariant.spec.alphabet_length"
          ("alphabet length " ++ toString l.toList.length ++ " does not equal size " ++ toString n)
          "$.alphabet"]
      else []
  | _ => [makeError "type.mismatch" "alphabet must be an array" "$.alphabet"]

def specAlphabetUniqueAux : Nat → List String → List JVal → List ValidationIssue
  | _, _, [] => []
  | i, seen, x :: r =>
    match x with
    | .jstr s =>
      (if seen.contains s then
        [makeError "invariant.spec.alphabet_unique"
          ("symbol \x27" ++ s ++ "\x27 is duplicated in alphabet")
          ("$.alphabet[" ++ toString i ++ "]")]
       else []) ++ specAlphabetUniqueAux (i + 1) (s :: seen) r
    | _ =>
      makeError "type.mismatch" "alphabet entries must be strings"
        ("$.alphabet[" ++ toString i ++ "]") :: specAlphabetUniqueAux (i + 1) seen r

def specAlphabetUnique (a : Obj) (_spec : Option Obj) (_p : ProfileConfig) :
    List ValidationIssue :=
  match a.lookup "alphabet" with
  | some (.jarr l) => specAlphabetUniqueAux 0 [] l.toList
  | _ => []

def specSolverTimeout (a : Obj) (_spec : Option Obj) (_p : ProfileConfig) :
    List ValidationIssue :=
  match a.lookup "limits" with
  | some (.jobj p) =>
    match asPyIntO (p.get "solver_timeout_ms") with
    | some t =>
      if t < 0 then
        [makeError "invariant.spec.limits_solver_timeout"
          "limits.solver_timeout_ms must be a non-negative integer" "$.limits.solver_timeout_ms"]
      else []
    | none =>
      [makeError "invariant.spec.limits_solver_timeout"
        "limits.solver_timeout_ms must be a non-negative integer" "$.limits.solver_timeout_ms"]
  | _ => [makeError "envelope.missing_field" "limits section is required" "$.limits"]

def gridEncoding (a : Obj) (_spec : Option Obj) (_p : ProfileConfig) : List ValidationIssue :=
  match a.lookup "encoding" with
  | some (.jobj p) =>
    let kind := p.get "kind"
    if kind = some (.jstr "row-major-string") then []
    else
      [makeError "invariant.grid.encoding_kind"
        ("encoding.kind must be \x27row-major-string\x27, got " ++ reprPyO kind)
        "$.encoding.kind"]
  | _ => [makeError "type.mismatch" "encoding must be an object" "$.encoding"]

def gridLength (a : Obj) (spec : Option Obj) (_p : ProfileConfig) : List ValidationIssue :=
  match a.lookup "grid" with
  | some (.jstr g) =>
    match spec with
    | none => []
    | some sp =>
      match asPyIntO (sp.lookup "size") with
      | none => []
      | some n =>
        let expected := n * n
        if (g.length : Int) ≠ expected then
          [makeError "invariant.grid.length"
            ("grid length " ++ toString g.length ++ " does not equal size^2 (" ++
              toString expected ++ ")") "$.grid"]
        else []
  | _ => [makeError "type.mismatch" "grid must be a string" "$.grid"]

def gridSymbolsAux (allowed : List String) : Nat → List Char → List ValidationIssue
  | _, [] => []
  | i, c :: r =>
    (if allowed.contains (String.singleton c) then []
     else
      [makeError "invariant.grid.symbol_out_of_alphabet"
        ("symbol \x27" ++ String.singleton c ++ "\x27 not present in Spec alphabet")
        ("$.grid[" ++ toString i ++ "]")]) ++ gridSymbolsAux allowed (i + 1) r

def gridSymbols (a : Obj) (spec : Option Obj) (_p : ProfileConfig) : List ValidationIssue :=
  match a.lookup "grid", spec with
  | some (.jstr g), some sp =>
    match sp.lookup "alphabet" with
    | some (.jarr l) =>
      let allowed := l.toList.filterMap (fun v => match v with | .jstr s => some s | _ => none)
      gridSymbolsAux allowed 0 g.data
    | _ => []
  | _, _ => []

def gridCanonicalHash (a : Obj) (_spec : Option Obj) (_p : ProfileConfig) :
    List ValidationIssue :=
  let canonical := a.lookup "canonical_hash"
  match a.lookup "grid" with
  | some (.jstr g) =>
    if isNoneO canonical then []
    else
      match canonical with
      | some (.jstr ch) =>
        let expected := "sha256-" ++ sha256hex (utf8 g)
        if ch ≠ expected then
          [makeWarning "invariant.grid.canonical_hash"
            ("canonical_hash \x27" ++ ch ++ "\x27 does not match computed \x27" ++
              expected ++ "\x27") "$.canonical_hash"]
        else []
      | _ =>
        [makeWarning "invariant.grid.canonical_hash" "canonical_hash must be a string"
          "$.canonical_hash"]
  | _ => []

def verdictXor (a : Obj) (_spec : Option Obj) (_p : ProfileConfig) : List ValidationIssue :=
  let present := [a.lookup "candidate_ref", a.lookup "solved_ref"].countP
    (fun o => (nonemptyStr o).isSome)
  if present ≠ 1 then
    [makeError "verdict.input_ref.xor_violation"
      "Exactly one of candidate_ref or solved_ref must be provided" "$.candidate_ref"]
  else []

def verdictUnique (a : Obj) (_spec : Option Obj) (_p : ProfileConfig) : List ValidationIssue :=
  match a.lookup "unique" with
  | some (.jbool _) => []
  | _ => [makeError "type.mismatch" "unique must be a boolean" "$.unique"]

def verdictTime (a : Obj) (_spec : Option Obj) (_p : ProfileConfig) : List ValidationIssue :=
  match asPyIntO (a.lookup "time_ms") with
  | some t =>
    if t < 0 then
      [makeError "verdict.time.invalid" "time_ms must be non-negative integer" "$.time_ms"]
    else []
  | none =>
    [makeError "verdict.time.invalid" "time_ms must be non-negative integer" "$.time_ms"]

def verdictCutoff (a : Obj) (_spec : Option Obj) (_p : ProfileConfig) : List ValidationIssue :=
  let cutoff := a.lookup "cutoff"
  if isNoneO cutoff ∨ cutoff = some (.jstr "TIMEOUT") ∨
      cutoff = some (.jstr "SECOND_SOLUTION_FOUND") then []
  else
    [makeError "verdict.cutoff.invalid"
      "cutoff must be null, \x27TIMEOUT\x27 or \x27SECOND_SOLUTION_FOUND\x27" "$.cutoff"]

def bundleFormat (a : Obj) (_spec : Option Obj) (_p : ProfileConfig) : List ValidationIssue :=
  match a.lookup "target" with
  | some (.jobj p) =>
    if p.get "format" = some (.jstr "pdf") then []
    else [makeError "invariant.export.format" "target.format must be \x27pdf\x27" "$.target.format"]
  | _ => [makeError "envelope.missing_field" "target section is required" "$.target"]

/-- The resolver closure handed to cross-reference rules; `none` results
model `FileNotFoundError` from the store. -/
abbrev Resolver := String → Option Obj

/-- `rulebook._resolve`. -/
def resolveRef (artifact_id : String) (resolver : Option Resolver) (path : String) :
    Option Obj × List ValidationIssue :=
  match resolver with
  | none => (none, [makeWarning "crossref.artifact_missing" "store resolver not configured" path])
  | some f =>
    match f artifact_id with
    | none =>
      (none, [makeError "crossref.artifact_missing" ("artifact " ++ artifact_id ++ " not found") path])
    | some resolved => (some resolved, [])

def gridSpecRef (a : Obj) (_store : Option Unit) (resolver : Option Resolver)
    (_p : ProfileConfig) : List ValidationIssue :=
  match nonemptyStr (a.lookup "spec_ref") with
  | none => [makeError "crossref.artifact_missing" "spec_ref must reference a Spec" "$.spec_ref"]
  | some r =>
    match resolveRef r resolver "$.spec_ref" with
    | (_, issue :: rest) => issue :: rest
    | (some resolved, []) =>
      if resolved.lookup "type" = some (.jstr "Spec") then []
      else [makeError "crossref.type_mismatch" "spec_ref must point to Spec" "$.spec_ref"]
    | (none, []) => []

def verdictRefsExistField (a : Obj) (resolver : Option Resolver) (field : String) :
    List ValidationIssue :=
  let ref := a.lookup field
  if isNoneO ref then []
  else
    match nonemptyStr ref with
    | none =>
      [makeError "crossref.type_mismatch" (field ++ " must be a reference id") ("$." ++ field)]
    | some r =>
      let (resolved, issues) := resolveRef r resolver ("$." ++ field)
      issues ++
        (match resolved with
         | some obj =>
           if obj.lookup "type" = some (.jstr "CompleteGrid") then []
           else
             [makeError "crossref.type_mismatch" (field ++ " must point to CompleteGrid")
               ("$." ++ field)]
         | none => [])

def verdictRefsExist (a : Obj) (_store : Option Unit) (resolver : Option Resolver)
    (_p : ProfileConfig) : List ValidationIssue :=
  verdictRefsExistField a resolver "candidate_ref" ++ verdictRefsExistField a resolver "solved_ref"

def bundleInputsExistField (inputs : JPairs) (resolver : Option Resolver) (field : String) :
    List ValidationIssue :=
  match nonemptyStr (inputs.get field) with
  | none =>
    [makeError "crossref.artifact_missing" (field ++ " must be a reference id")
      ("$.inputs." ++ field)]
  | some r => (resolveRef r resolver ("$.inputs." ++ field)).2

def bundleInputsExist (a : Obj) (_store : Option Unit) (resolver : Option Resolver)
    (_p : ProfileConfig) : List ValidationIssue :=
  match a.lookup "inputs" with
  | some (.jobj inputs) =>
    bundleInputsExistField inputs resolver "complete_ref" ++
      bundleInputsExistField inputs resolver "verdict_ref"
  | _ => [makeError "envelope.missing_field" "inputs section is required" "$.inputs"]

def bundleTypesMatchField (inputs : JPairs) (resolver : Option Resolver)
    (field expected : String) : List ValidationIssue :=
  match nonemptyStr (inputs.get field) with
  | none => []
  | some r =>
    let (resolved, issues) := resolveRef r resolver ("$.inputs." ++ field)
    issues ++
      (match resolved with
       | some obj =>
         if obj.lookup "type" = some (.jstr expected) then []
         else
           [makeError "crossref.type_mismatch" (field ++ " must point to " ++ expected)
             ("$.inputs." ++ field)]
       | none => [])

def bundleTypesMatch (a : Obj) (_store : Option Unit) (resolver : Option Resolver)
    (_p : ProfileConfig) : List ValidationIssue :=
  match a.lookup "inputs" with
  | some (.jobj inputs) =>
    bundleTypesMatchField inputs resolver "complete_ref" "CompleteGrid" ++
      bundleTypesMatchField inputs resolver "verdict_ref" "Verdict"
  | _ => []

def bundleSpecConsistencyField (inputs : JPairs) (resolver : Option Resolver)
    (bundle_spec field : String) : List ValidationIssue :=
  match nonemptyStr (inputs.get field) with
  | none => []
  | some r =>
    let (resolved, issues) := resolveRef r resolver ("$.inputs." ++ field)
    issues ++
      (match resolved with
       | some obj =>
         if obj.lookup "spec_ref" = some (.jstr bundle_spec) then []
         else
           [makeError "crossref.spec_mismatch"
             (field ++ " spec_ref " ++ reprPyO (obj.lookup "spec_ref") ++
               " does not match bundle spec_ref \x27" ++ bundle_spec ++ "\x27")
             ("$.inputs." ++ field)]
       | none => [])

def bundleSpecConsistency (a : Obj) (_store : Option Unit) (resolver : Option Resolver)
    (_p : ProfileConfig) : List ValidationIssue :=
  match nonemptyStr (a.lookup "spec_ref") with
  | none => []
  | some bundle_spec =>
    match a.lookup "inputs" with
    | some (.jobj inputs) =>
      bundleSpecConsistencyField inputs resolver bundle_spec "complete_ref" ++
        bundleSpecConsistencyField inputs resolver bundle_spec "verdict_ref"
    | _ => []

/-- `rulebook._RULES`, invariant half: rule names with their checks, per type. -/
def invariantRulesFor (t : String) :
    List (String × (Obj → Option Obj → ProfileConfig → List ValidationIssue)) :=
  if t = "Spec" then
    [("spec_size", specSize), ("spec_alphabet_length", specAlphabetLength),
     ("spec_alphabet_unique", specAlphabetUnique), ("spec_solver_timeout", specSolverTimeout)]
  else if t = "CompleteGrid" then
    [("grid_encoding", gridEncoding), ("grid_length", gridLength),
     ("grid_symbols", gridSymbols), ("grid_canonical_hash", gridCanonicalHash)]
  else if t = "Verdict" then
    [("verdict_xor", verdictXor), ("verdict_unique", verdictUnique),
     ("verdict_time", verdictTime), ("verdict_cutoff", verdictCutoff)]
  else if t = "ExportBundle" then
    [("bundle_format", bundleFormat)]
  else []

/-- `rulebook._RULES`, cross-reference half. -/
def crossrefRulesFor (t : String) :
    List (String × (Obj → Option Unit → Option Resolver → ProfileConfig → List ValidationIssue)) :=
  if t = "CompleteGrid" then [("spec_ref_exists", gridSpecRef)]
  else if t = "Verdict" then
    [("spec_ref_exists", gridSpecRef), ("verdict_refs_exist", verdictRefsExist)]
  else if t = "ExportBundle" then
    [("bundle_inputs_exist", bundleInputsExist), ("bundle_types_match", bundleTypesMatch),
     ("bundle_spec_consistency", bundleSpecConsistency)]
  else []

def artifactTypeStr (a : Obj) : String :=
  match a.lookup "type" with
  | some (.jstr t) => t
  | _ => ""

/-- `rulebook.run_invariants`. -/
def runInvariants (a : Obj) (spec_ctx : Option Obj) (profile : ProfileConfig) :
    List ValidationIssue :=
  ((invariantRulesFor (artifactTypeStr a)).map
    (fun rule =>
      if profile.isInvariantEnabled (artifactTypeStr a) rule.1 then rule.2 a spec_ctx profile
      else [])).flatten

/-- `rulebook.run_crossrefs` as defined: note the four parameters
`(artifact, store, resolver, profile)`; see `validateE` for the arity of
the call the validator actually makes. -/
def runCrossrefs (a : Obj) (store : Option Unit) (resolver : Option Resolver)
    (profile : ProfileConfig) : List ValidationIssue :=
  ((crossrefRulesFor (artifactTypeStr a)).map
    (fun rule =>
      if profile.isCrossrefEnabled (artifactTypeStr a) rule.1 then
        rule.2 a store resolver profile
      else [])).flatten

/-! ## Validation Center facade (embedding of `contracts/validator.py`) -/

structure SchemaDescriptor where
  artifact_type : String
  version : String
  schema_id : String
  schema_path : String
deriving DecidableEq

/-- Modelled from the spec: the schema catalog file
`PuzzleContracts/catalog.json` is repository data outside `src/`; per the
spec it maps each artifact type to its `version` / `schema_id` /
`schema_path` descriptor.  The four catalogued types carry placeholder
descriptor values, used consistently on both sides of the envelope
comparisons. -/
def catalogModel (t : String) : Option SchemaDescriptor :=
  if t = "Spec" ∨ t = "CompleteGrid" ∨ t = "Verdict" ∨ t = "ExportBundle" then
    some ⟨t, "1.0.0", "sudoku." ++ t, "schemas/" ++ t ++ ".json"⟩
  else none

/-- Modelled from the spec: `validator._check_iso8601` delegates to the
external `datetime.fromisoformat`; the spec fixes the envelope timestamp
shape to ISO-8601 UTC with millisecond precision, which is the format
accepted here (`YYYY-MM-DDTHH:MM:SS.mmmZ`). -/
def isIso8601Model (s : String) : Bool :=
  match s.data with
  | [y1, y2, y3, y4, d1, m1, m2, d2, dd1, dd2, t, h1, h2, c1, n1, n2, c2, s1, s2, dot,
     ms1, ms2, ms3, z] =>
    y1.isDigit && y2.isDigit && y3.isDigit && y4.isDigit && d1 = '-' && m1.isDigit &&
      m2.isDigit && d2 = '-' && dd1.isDigit && dd2.isDigit && t = 'T' && h1.isDigit &&
      h2.isDigit && c1 = ':' && n1.isDigit && n2.isDigit && c2 = ':' && s1.isDigit &&
      s2.isDigit && dot = '.' && ms1.isDigit && ms2.isDigit && ms3.isDigit && z = 'Z'
  | _ => false

/-- `validator._envelope_checks`. -/
def envelopeChecks (a : Obj) (expect_type : String) (descriptor : Option SchemaDescriptor) :
    List ValidationIssue :=
  let typeIssues :=
    if a.lookup "type" = some (.jstr expect_type) then []
    else
      [makeError "type.mismatch"
        ("Expected type \x27" ++ expect_type ++ "\x27, got " ++ reprPyO (a.lookup "type"))
        "$.type"]
  match descriptor with
  | none => typeIssues
  | some descriptor =>
    typeIssues ++
    (if a.lookup "schema_version" = some (.jstr descriptor.version) then []
     else [makeError "schema.mismatch_version" "schema_version does not match catalog"
       "$.schema_version"]) ++
    (if a.lookup "schema_id" = some (.jstr descriptor.schema_id) then []
     else [makeError "schema.mismatch_id" "schema_id does not match catalog" "$.schema_id"]) ++
    (if a.lookup "schema_path" = some (.jstr descriptor.schema_path) then []
     else [makeError "schema.mismatch_path" "schema_path does not match catalog"
       "$.schema_path"]) ++
    (let spec_ref := a.lookup "spec_ref"
     if expect_type = "Spec" then
       if isNoneO spec_ref ∨ spec_ref = some (.jstr "") then []
       else [makeError "envelope.bad_type" "Spec must not define spec_ref" "$.spec_ref"]
     else
       if (nonemptyStr spec_ref).isSome then []
       else [makeError "envelope.missing_field" "spec_ref must reference a Spec" "$.spec_ref"]) ++
    (match a.lookup "artifact_id" with
     | some (.jstr s) =>
       if s.startsWith "sha256-" then []
       else
         [makeError "envelope.missing_field" "artifact_id must start with \x27sha256-\x27"
           "$.artifact_id"]
     | _ =>
       [makeError "envelope.missing_field" "artifact_id must start with \x27sha256-\x27"
         "$.artifact_id"]) ++
    (match a.lookup "created_at" with
     | some (.jstr s) =>
       if isIso8601Model s then []
       else [makeError "envelope.bad_type" "created_at must be ISO8601 string" "$.created_at"]
     | _ => [makeError "envelope.bad_type" "created_at must be ISO8601 string" "$.created_at"]) ++
    (if a.lookup "puzzle_type" = some (.jstr "sudoku") then []
     else [makeError "envelope.bad_type" "puzzle_type must be \x27sudoku\x27" "$.puzzle_type"]) ++
    (if (nonemptyStr (a.lookup "run_id")).isSome then []
     else [makeError "envelope.bad_type" "run_id must be a non-empty string" "$.run_id"]) ++
    (match a.lookup "seed" with
     | some (.jstr _) => []
     | some (.jint _) => []
     | some (.jbool _) => []
     | _ => [makeError "envelope.bad_type" "seed must be string or integer" "$.seed"]) ++
    (if (nonemptyStr (a.lookup "stage")).isSome then []
     else [makeError "envelope.bad_type" "stage must be a non-empty string" "$.stage"]) ++
    (match a.lookup "parents" with
     | some (.jarr parents) =>
       let entries := parents.toList
       (((entries.enum.map
         (fun xi =>
           match xi.2 with
           | .jstr s =>
             if s.startsWith "sha256-" then []
             else
               [makeError "envelope.bad_type" "parents must contain artifact ids"
                 ("$.parents[" ++ toString xi.1 ++ "]")]
           | _ =>
             [makeError "envelope.bad_type" "parents must contain artifact ids"
               ("$.parents[" ++ toString xi.1 ++ "]")])).flatten) ++
        (if entries.length ≠ entries.dedup.length then
          [makeError "envelope.bad_type" "parents must be unique" "$.parents"]
         else []))
     | _ => [makeError "envelope.bad_type" "parents must be a list" "$.parents"]) ++
    (match a.lookup "metrics" with
     | some (.jobj metrics) =>
       match asPyIntO (metrics.get "time_ms") with
       | some t =>
         if t < 0 then
           [makeError "envelope.bad_type" "metrics.time_ms must be non-negative integer"
             "$.metrics.time_ms"]
         else []
       | none =>
         [makeError "envelope.bad_type" "metrics.time_ms must be non-negative integer"
           "$.metrics.time_ms"]
     | _ => [makeError "envelope.bad_type" "metrics must be an object" "$.metrics"])

/-- `validator._schema_stage`.  The optional JSON-Schema pass degrades to
the manual checks when the `jsonschema` library is unavailable (per
`contracts/loader.maybe_compile`), contributing no further issues, which
is how it is embedded. -/
def schemaStage (artifact : JVal) (expect_type : String) (_profile : ProfileConfig) :
    List ValidationIssue :=
  match artifact with
  | .jobj p =>
    let descriptor := catalogModel expect_type
    (if descriptor.isSome then []
     else [makeError "schema.not_found" ("Unknown artifact type " ++ expect_type) "$.type"]) ++
      envelopeChecks p.toList expect_type descriptor
  | _ => [makeError "type.mismatch" "Artifact must be a JSON object" "$"]

/-- `validator._apply_overrides`: remap severities, then split into
errors and warnings. -/
def applyOverridesSplit (profile : ProfileConfig) (t : String) (issues : List ValidationIssue) :
    List ValidationIssue × List ValidationIssue :=
  let adjusted := issues.map (profile.applyOverride t)
  (adjusted.filter (fun i => i.severity ≠ "WARN"), adjusted.filter (fun i => i.severity = "WARN"))

inductive PyError where
  | typeError (msg : String)
  | managedValidationError (msg : String)
  | runtimeError (msg : String)
deriving DecidableEq

/-- `contracts/errors.ValidationReport`.  The three timing entries are
written by `validate` from `time.perf_counter` readings; the wall-clock
values are external and carried as zeros, the keys are the contract. -/
structure ValidationReport where
  ok : Bool
  errors : List ValidationIssue
  warnings : List ValidationIssue
  timings_ms : List (String × Nat)
deriving DecidableEq

/-- `validator.validate`.  At `validator.py:245` the crossref stage calls
`rulebook.run_crossrefs(artifact, store_for_rules, profile_cfg)` with
three positional arguments, while `rulebook.run_crossrefs`
(`rulebook.py:413`) declares four required parameters
`(artifact, store, resolver, profile)`; Python therefore raises
`TypeError` before any cross-reference rule runs, embedded as
`Except.error`.  The stage is reached whenever the profile enables
cross-reference checks and the artifact is a mapping. -/
def validateE (artifact : JVal) (expect_type : String) (profile : ProfileConfig)
    (resolver : Option Resolver) : Except PyError ValidationReport :=
  let schemaIssues := schemaStage artifact expect_type profile
  let schemaSplit := applyOverridesSplit profile expect_type schemaIssues
  let specCtx : Option Obj :=
    match artifact with
    | .jobj p =>
      if expect_type = "Spec" then some p.toList
      else
        match p.toList.lookup "spec_ref", resolver with
        | some (.jstr spec_ref), some f =>
          match f spec_ref with
          | some candidate =>
            if candidate ≠ [] ∧ candidate.lookup "type" = some (.jstr "Spec") then
              some candidate
            else none
          | none => none
        | _, _ => none
    | _ => none
  match artifact with
  | .jobj p =>
    let invSplit :=
      if profile.check_invariants then
        applyOverridesSplit profile expect_type (runInvariants p.toList specCtx profile)
      else ([], [])
    if profile.check_crossrefs then
      .error (.typeError
        "run_crossrefs() missing 1 required positional argument: \x27profile\x27")
    else
      let errors := schemaSplit.1 ++ invSplit.1
      .ok ⟨errors = [], errors, schemaSplit.2 ++ invSplit.2,
        [("schema", 0), ("invariants", 0), ("crossrefs", 0)]⟩
  | _ =>
    let errors := schemaSplit.1
    .ok ⟨errors = [], errors, schemaSplit.2,
      [("schema", 0), ("invariants", 0), ("crossrefs", 0)]⟩

/-- `validator.assert_valid`. -/
def assertValidE (artifact : JVal) (expect_type : String) (profile : ProfileConfig)
    (resolver : Option Resolver) : Except PyError Unit :=
  match validateE artifact expect_type profile resolver with
  | .error e => .error e
  | .ok report =>
    if report.ok ∧ ¬(profile.warn_as_error ∧ report.warnings ≠ []) then .ok ()
    else .error (.managedValidationError ("Validation failed for " ++ expect_type))

/-- `validator.check_refs` on an in-memory bundle. -/
def checkRefsE (bundle : JVal) (profile : ProfileConfig) (resolver : Resolver) :
    Except PyError ValidationReport :=
  validateE bundle "ExportBundle" profile (some resolver)

/-! ## Shadow-compare runtime (embedding of `orchestrator/shadow_compare.py`)

Runner execution becomes an `Except`-valued result plus an externally
measured duration (`time.perf_counter` readings are wall clock).  The
environment readings `_current_commit_sha` (git), `_hardware_fingerprint`
(platform), `_deterministic_timestamp` (uuid5) and `_envelope_digest`
(the `contracts.envelope` dataclass) are explicit parameters. -/

structure ShadowRunM where
  verdict : String
  result : JVal
  metrics : Option JVal := none
  extra : Option JVal := none
deriving DecidableEq

structure GuardrailContextM where
  severity : String
  kind : String
  baseline_ms : ℚ
  candidate_ms : ℚ
  delta_ms : ℚ
  overhead_pct : ℚ

structure TimingsM where
  baseline_ms : ℚ
  candidate_ms : ℚ
  delta_ms : ℚ
  overhead_pct : ℚ
deriving DecidableEq

structure TaskM where
  run_id : String
  stage : String
  seed : String
  module_id : String
  profile : String
  sample_rate : ℚ
  sample_rate_str : String
  hash_salt : Option String
  sticky : Bool := false
  guardrail : Option (GuardrailContextM → Bool) := none
  classifier : Option (ShadowRunM → ShadowRunM → Option (String × String)) := none
  metadata_puzzle_digest : Option String := none
  metadata_commit_sha : Option String := none
  metadata_baseline_sha : Option String := none
  metadata_hw_fingerprint : Option String := none
  allow_fallback : Bool := true
  primary_impl : String := "legacy"
  secondary_impl : String := "novus"
  log_mismatch : Bool := true
  complete_artifact : Option JVal := none
  baseline_runner : Except String ShadowRunM
  candidate_runner : Except String ShadowRunM

structure ShadowEnvM where
  cand_ms : ℚ
  base_ms : ℚ
  commit_sha_repo : String
  hw_fingerprint : String
  ts : String
  envelope_jcs : String

structure ShadowResultM where
  sampled : Bool
  severity : String
  kind : String
  baseline_digest : Option String
  candidate_digest : String
  returned : ShadowRunM
  baseline : Option ShadowRunM
  candidate : ShadowRunM
  fallback_used : Bool
  logged : Bool
  timings : TimingsM
  event : List (String × JVal)
  taxonomy : Option (String × String × String)
deriving DecidableEq

/-- Python `round` (half to even), as used by `_round_ms`. -/
def pyRound (x : ℚ) : Int :=
  let f := ⌊x⌋
  let frac := x - (f : ℚ)
  if frac < 1 / 2 then f
  else if 1 / 2 < frac then f + 1
  else if f % 2 = 0 then f else f + 1

/-- `shadow_compare._round_ms`. -/
def roundMs (x : ℚ) : Int := max 0 (pyRound x)

def strLower (s : String) : String := ⟨s.data.map Char.toLower⟩

def isHexLower (c : Char) : Bool := c.isDigit || ('a' ≤ c && c ≤ 'f')

/-- Python `s.split("-", 1)[1]`. -/
def afterFirstDash (s : String) : String :=
  match s.splitOn "-" with
  | [] => s
  | _ :: rest => String.intercalate "-" rest

/-- `shadow_compare._normalize_hex_digest`. -/
def normalizeHexDigest (v : Option JVal) : Option String :=
  match v with
  | some (.jstr raw) =>
    let c := strLower raw.trim
    let c := if c.startsWith "sha256-" ∨ c.startsWith "sha1-" then afterFirstDash c else c
    if c = "" then none
    else if c.data.all isHexLower ∧ (c.length = 40 ∨ c.length = 64) then some c
    else none
  | _ => none

/-- `shadow_compare._normalize_required_hex`. -/
def normalizeRequiredHex (v : Option JVal) (fallback : String) : String :=
  match normalizeHexDigest v with
  | some c => c
  | none =>
    match normalizeHexDigest (some (.jstr fallback)) with
    | some c => c
    | none => ⟨List.replicate 64 '0'⟩

/-- `shadow_compare._extract_solved_ref`. -/
def extractSolvedRef : JVal → Option String
  | .jobj p => nonemptyStr (p.get "solved_ref")
  | _ => none

/-- `shadow_compare._solve_trace_digest` (a `_canonical_digest`, i.e. a bare
hex digest of the JCS bytes). -/
def solveTraceDigest (payload : Option JPairs) : String :=
  let trace : JVal :=
    match payload with
    | some p => (p.get "trace").getD (.jobj .nil)
    | none => .jobj .nil
  sha256hex (jcsDump trace)

/-- `shadow_compare._string_to_digits`: digits and dots of a string, capped
at 81 entries. -/
def stringToDigitsAux : List Char → List Int → List Int
  | [], acc => acc
  | c :: r, acc =>
    let acc' :=
      if c.isDigit then acc ++ [(c.toNat : Int) - 48]
      else if c = '.' then acc ++ [0]
      else acc
    if acc'.length = 81 then acc' else stringToDigitsAux r acc'

def stringToDigits (s : String) : List Int := stringToDigitsAux s.data []

def gridItemsCollect : List JVal → List Int → List Int
  | [], acc => acc
  | x :: r, acc =>
    let acc' :=
      match x with
      | .jstr s => acc ++ stringToDigits s
      | .jint n => acc ++ [n]
      | .jbool b => acc ++ [if b then (1 : Int) else 0]
      | _ => acc
    if 81 ≤ acc'.length then acc' else gridItemsCollect r acc'

/-- `shadow_compare._grid_from_source`. -/
def gridFromSource : JVal → Option (List Int)
  | .jstr s =>
    let d := stringToDigits s
    if d.length = 81 then some d else none
  | .jarr l =>
    let d := gridItemsCollect l.toList []
    if 81 ≤ d.length then some (d.take 81) else none
  | _ => none

def gridFromSourceO : Option JVal → Option (List Int)
  | some v => gridFromSource v
  | none => none

def firstGrid : List (Option JVal) → Option (List Int)
  | [] => none
  | s :: r =>
    match gridFromSourceO s with
    | some d => some d
    | none => firstGrid r

/-- `shadow_compare._extract_grid_digits`. -/
def extractGridDigits (payload : Option JPairs) (complete : Option JVal) : List Int :=
  let sources : List (Option JVal) :=
    (match payload with | some p => [p.get "grid"] | none => []) ++
    (match complete with | some (.jobj c) => [c.get "grid"] | _ => [])
  match firstGrid sources with
  | some digits => (digits ++ List.replicate (81 - digits.length) 0).take 81
  | none => List.replicate 81 0

/-- `shadow_compare._index_from_label`.  Integer labels admit Python
booleans (`isinstance(label, int)`); string labels are `rXcY` or plain
indices. -/
def indexFromLabel (label : JVal) : Option Nat :=
  match asPyInt label with
  | some i => if 0 ≤ i ∧ i < 81 then some i.toNat else none
  | none =>
    match label with
    | .jstr s =>
      let stripped := strLower s.trim
      if stripped ≠ "" ∧ stripped.data.all Char.isDigit then
        match stripped.toNat? with
        | some idx => if idx < 81 then some idx else none
        | none => none
      else if stripped.startsWith "r" ∧ stripped.contains 'c' then
        match (stripped.drop 1).splitOn "c" with
        | row :: colParts =>
          if colParts = [] then none
          else
            let col := String.intercalate "c" colParts
            if row ≠ "" ∧ row.data.all Char.isDigit ∧ col ≠ "" ∧ col.data.all Char.isDigit then
              match row.toNat?, col.toNat? with
              | some rr, some cc =>
                if 1 ≤ rr ∧ rr ≤ 9 ∧ 1 ≤ cc ∧ cc ≤ 9 then some ((rr - 1) * 9 + (cc - 1))
                else none
              | _, _ => none
            else none
        | [] => none
      else none
    | _ => none

mutual

/-- `shadow_compare._iter_candidate_digits`. -/
def iterCandidateDigits : JVal → List Int
  | .jstr s => s.data.filterMap (fun c => if c.isDigit then some ((c.toNat : Int) - 48) else none)
  | .jarr l => iterCandidateDigitsL l
  | .jint n => [n]
  | .jbool b => [if b then 1 else 0]
  | _ => []

def iterCandidateDigitsL : JList → List Int
  | .nil => []
  | .cons x r => iterCandidateDigits x ++ iterCandidateDigitsL r

end

def emptyMatrix : List (List Nat) := List.replicate 81 (List.replicate 9 0)

/-- The `apply` closure inside `_candidate_matrix`: set the bitmap bits of
the digits found in `values` and report whether anything was applied. -/
def applyCell (m : List (List Nat)) (idx : Nat) (values : JVal) : List (List Nat) × Bool :=
  if idx < 81 then
    let digits := iterCandidateDigits values
    let newCell := digits.foldl
      (fun c d => if 1 ≤ d ∧ d ≤ 9 then c.set (d - 1).toNat 1 else c) (m.getD idx [])
    (m.set idx newCell, digits.any (fun d => decide (1 ≤ d) && decide (d ≤ 9)))
  else (m, false)

/-- `shadow_compare._candidate_matrix`.  Integer dict keys from Python
surface as their decimal string labels in the embedding. -/
def candidateMatrix (payload : Option JPairs) : Option (List (List Nat)) :=
  match payload with
  | none => none
  | some p =>
    match p.get "candidates" with
    | none => none
    | some .jnull => none
    | some (.jobj raw) =>
      let step := raw.toList.foldl
        (fun (acc : List (List Nat) × Bool) kv =>
          match indexFromLabel (.jstr kv.1) with
          | none => acc
          | some idx =>
            let r := applyCell acc.1 idx kv.2
            (r.1, acc.2 || r.2)) (emptyMatrix, false)
      if step.2 then some step.1 else none
    | some (.jarr l) =>
      let entries := l.toList
      if entries.length = 81 then
        let step := entries.enum.foldl
          (fun (acc : List (List Nat) × Bool) iv =>
            let r := applyCell acc.1 iv.1 iv.2
            (r.1, acc.2 || r.2)) (emptyMatrix, false)
        if step.2 then some step.1 else none
      else none
    | some _ => none

/-- `shadow_compare._state_hash_digest`. -/
def stateHashDigest (payload : Option JPairs) (complete : Option JVal) : String :=
  let digits := extractGridDigits payload complete
  let matrix :=
    match candidateMatrix payload with
    | some m => m
    | none =>
      (digits.take 81).enum.foldl
        (fun (m : List (List Nat)) (iv : Nat × Int) =>
          if 1 ≤ iv.2 ∧ iv.2 ≤ 9 then
            m.set iv.1 ((m.getD iv.1 []).set (iv.2 - 1).toNat 1)
          else m) emptyMatrix
  let flags := matrix.flatten
  let flags := (flags ++ List.replicate (81 * 9 - flags.length) 0).take (81 * 9)
  let grid_bytes := (digits.take 81).map (fun d => (max 0 (min 9 d)).toNat)
  sha256hex (flags ++ grid_bytes)

/-- `shadow_compare._coerce_int`.  String values are modelled for integer
literals (`int(float(s))` on non-integral decimal strings is not exercised
by any artifact in scope). -/
def coerceInt : Option JVal → Option Int
  | some (.jbool b) => some (if b then 1 else 0)
  | some (.jint n) => some n
  | some (.jstr s) =>
    let stripped := s.trim
    if stripped = "" then none else stripped.toInt?
  | _ => none

structure GMetrics where
  nodes : Int
  bt_depth : Int
  time_ms : Int
deriving DecidableEq

structure GPayload where
  nodes : Int
  bt_depth : Int
  time_ms : Int
  limit_hit : String
deriving DecidableEq

/-- `shadow_compare._collect_guardrail_metrics`. -/
def collectGuardrailMetrics (run : ShadowRunM) (measured_ms : ℚ) : GMetrics :=
  let payload : JPairs := match run.result with | .jobj p => p | _ => .nil
  let nodes := match coerceInt (payload.get "nodes") with | some n => n | none => 0
  let time_ms :=
    match coerceInt (payload.get "time_ms") with
    | some t => if t = 0 then roundMs measured_ms else t
    | none => roundMs measured_ms
  let bt_depth :=
    match coerceInt (payload.get "bt_depth") with
    | some d => d
    | none =>
      match coerceInt (payload.get "backtrack_depth") with
      | some d => d
      | none =>
        match coerceInt (payload.get "max_bt_depth") with
        | some d => d
        | none =>
          match coerceInt (payload.get "depth") with
          | some d => d
          | none => 0
  ⟨nodes, bt_depth, time_ms⟩

def sortStrings (l : List String) : List String :=
  List.insertionSort (fun a b => strLt b a = false) l

/-- `shadow_compare._GUARDRAIL_LIMITS` breaches, in the dict insertion
order `nodes`, `bt_depth`, `time_ms`. -/
def guardrailBreaches (m : GMetrics) : List String :=
  (if m.nodes > 200000 then ["nodes"] else []) ++
  (if m.bt_depth > 60 then ["bt_depth"] else []) ++
  (if m.time_ms > 2000 then ["time_ms"] else [])

/-- `shadow_compare._evaluate_guardrails`. -/
def evaluateGuardrails (m : GMetrics) : Option GPayload :=
  let breaches := guardrailBreaches m
  if breaches = [] then none
  else some ⟨m.nodes, m.bt_depth, m.time_ms,
    String.intercalate "+" (sortStrings breaches.dedup)⟩

/-- `shadow_compare._TAXONOMY` severities; `_TAXONOMY.get(code, _TAXONOMY["C6"])`
falls back to the C6 entry. -/
def taxonomySeverity (code : String) : String :=
  if code = "C1" ∨ code = "C2" then "CRITICAL"
  else if code = "C3" ∨ code = "C4" then "MAJOR"
  else "MINOR"

def removeTraceKey (p : JPairs) : JVal :=
  .jobj (JPairs.ofList ((p.toList).filter (fun kv => ¬(kv.1 = "trace"))))

/-- `shadow_compare.classify_mismatch`. -/
def classifyMismatch (baseline candidate : ShadowRunM) : Option (String × String) :=
  if baseline.verdict ≠ candidate.verdict then some ("C1", "unique_flag_mismatch")
  else
    match baseline.result, candidate.result with
    | .jobj bp, .jobj cp =>
      if pyEq (.jobj bp) (.jobj cp) then none
      else if ¬(pyEqO (bp.get "unique") (cp.get "unique")) then
        some ("C1", "unique_flag_mismatch")
      else if ¬(pyEqO (bp.get "grid") (cp.get "grid")) then some ("C2", "grid_value_diff")
      else if ¬(pyEqO (bp.get "trace") (cp.get "trace")) then
        some ("C3", "solve_trace_divergence")
      else if ¬(pyEqO (bp.get "candidates") (cp.get "candidates")) then
        some ("C5", "format_canon_mismatch")
      else if ¬(pyEq (removeTraceKey bp) (removeTraceKey cp)) then some ("C6", "other_diff")
      else none
    | b, c => if pyEq b c then none else some ("C6", "other_diff")

/-- `shadow_compare._build_shadow_event`, keys in source insertion order. -/
def buildShadowEvent (task : TaskM) (env : ShadowEnvM)
    (taxonomy : Option (String × String × String)) (verdict_status diff_summary : String)
    (puzzle_digest : Option String) (solved_ref_digest : String)
    (solve_trace_digest state_hash_digest envelope_digest : String)
    (guardrail : Option GPayload) : List (String × JVal) :=
  let commit_sha := normalizeRequiredHex
    (task.metadata_commit_sha.map .jstr) env.commit_sha_repo
  let baseline_raw : Option JVal :=
    match task.metadata_baseline_sha with
    | some s => if s ≠ "" then some (.jstr s) else some (.jstr commit_sha)
    | none => some (.jstr commit_sha)
  let baseline_sha := normalizeRequiredHex baseline_raw commit_sha
  let hw_fp :=
    match task.metadata_hw_fingerprint with
    | some s => if s ≠ "" then s else env.hw_fingerprint
    | none => env.hw_fingerprint
  let puzzle_hex := normalizeRequiredHex (puzzle_digest.map .jstr) ⟨List.replicate 64 '0'⟩
  let event_type :=
    if taxonomy = none ∧ verdict_status = "match" then "sudoku.shadow_sample.v1"
    else "sudoku.shadow_mismatch.v1"
  [("type", .jstr event_type),
   ("run_id", .jstr task.run_id),
   ("ts_iso8601", .jstr env.ts),
   ("commit_sha", .jstr commit_sha),
   ("baseline_sha", .jstr baseline_sha),
   ("hw_fingerprint", .jstr hw_fp),
   ("profile", .jstr task.profile),
   ("puzzle_digest", .jstr puzzle_hex),
   ("solver_primary", .jstr task.primary_impl),
   ("solver_shadow", .jstr task.secondary_impl),
   ("verdict_status", .jstr verdict_status),
   ("time_ms_primary", .jint (roundMs env.cand_ms)),
   ("time_ms_shadow", .jint (roundMs env.base_ms)),
   ("diff_summary", .jstr diff_summary),
   ("solved_ref_digest", .jstr (normalizeRequiredHex (some (.jstr solved_ref_digest)) puzzle_hex)),
   ("sample_rate", .jstr task.sample_rate_str),
   ("solve_trace_sha256", .jstr solve_trace_digest),
   ("state_hash_sha256", .jstr state_hash_digest),
   ("envelope_jcs_sha256", .jstr envelope_digest)] ++
  (match taxonomy with
   | some t =>
     [("taxonomy", .jobj (JPairs.ofList
       [("code", .jstr t.1), ("severity", .jstr t.2.1), ("reason", .jstr t.2.2)]))]
   | none => []) ++
  (match guardrail with
   | some g =>
     [("nodes", .jint g.nodes), ("bt_depth", .jint g.bt_depth), ("time_ms", .jint g.time_ms),
      ("limit_hit", .jstr g.limit_hit)]
   | none => [])

/-- The `shadow_compare.skipped` event of the unsampled branch.  Its
`overhead_pct` is always zero there and is embedded as integer zero (no
other float reaches an event payload). -/
def skippedEvent (task : TaskM) (env : ShadowEnvM) (candidate_digest : String)
    (solve_trace_digest state_hash_digest envelope_digest : String) : List (String × JVal) :=
  [("event", .jstr "shadow_compare.skipped"),
   ("run_id", .jstr task.run_id),
   ("stage", .jstr task.stage),
   ("seed", .jstr task.seed),
   ("module_id", .jstr task.module_id),
   ("profile", .jstr task.profile),
   ("sample_rate", .jstr task.sample_rate_str),
   ("severity", .jstr "NONE"),
   ("kind", .jstr "none"),
   ("sampled", .jbool false),
   ("digests", .jobj (JPairs.ofList [("baseline", .jnull), ("candidate", .jstr candidate_digest)])),
   ("timings", .jobj (JPairs.ofList
     [("baseline_ms", .jint (roundMs 0)), ("candidate_ms", .jint (roundMs env.cand_ms)),
      ("delta_ms", .jint (roundMs env.cand_ms)), ("overhead_pct", .jint 0)]))] ++
  (match task.metadata_puzzle_digest with
   | some s => if s ≠ "" then [("puzzle_digest", .jstr s)] else []
   | none => []) ++
  [("solve_trace_sha256", .jstr solve_trace_digest),
   ("state_hash_sha256", .jstr state_hash_digest),
   ("envelope_jcs_sha256", .jstr envelope_digest)]

/-- The `(taxonomy?, verdict_status, diff_summary)` triple computed in the
sampled branch of `run_with_shadow`: the guardrail evaluation, and only
when it does not trigger, the (caller-supplied or default) payload
classifier. -/
def shadowOutcome (task : TaskM) (baseline candidate : ShadowRunM) (base_ms : ℚ) :
    Option (String × String × String) × String × String :=
  match evaluateGuardrails (collectGuardrailMetrics baseline base_ms) with
  | some g =>
    let limit_tag := String.intercalate "_" (g.limit_hit.splitOn "+")
    (some ("C4", taxonomySeverity "C4", "guardrail_exceeded_" ++ limit_tag),
     "budget_exhausted", "C4:" ++ g.limit_hit)
  | none =>
    let classifier := task.classifier.getD classifyMismatch
    match classifier baseline candidate with
    | some (code, reason) =>
      (some (code, taxonomySeverity code, reason), "mismatch", code ++ ":" ++ reason)
    | none => (none, "match", "none")

/-- The severity string derived from a taxonomy entry. -/
def outcomeSeverity (taxonomy_entry : Option (String × String × String)) : String :=
  match taxonomy_entry with | some t => t.2.1 | none => "NONE"

def outcomeKind (taxonomy_entry : Option (String × String × String)) : String :=
  match taxonomy_entry with | some t => t.1 | none => "none"

/-- The candidate-side digests computed before sampling. -/
def candPayload (candidate : ShadowRunM) : Option JPairs :=
  match candidate.result with | .jobj p => some p | _ => none

/-- The `ShadowResult` of the unsampled branch of `run_with_shadow`. -/
def skippedShadowResult (task : TaskM) (env : ShadowEnvM) (candidate : ShadowRunM) :
    ShadowResultM :=
  { sampled := false, severity := "NONE", kind := "none", baseline_digest := none,
    candidate_digest := jcsSha256 candidate.result, returned := candidate, baseline := none,
    candidate, fallback_used := false, logged := false,
    timings := ⟨0, env.cand_ms, env.cand_ms, 0⟩,
    event := skippedEvent task env (jcsSha256 candidate.result)
      (solveTraceDigest (candPayload candidate))
      (stateHashDigest (candPayload candidate) task.complete_artifact) env.envelope_jcs,
    taxonomy := none }

/-- The `ShadowResult` of the sampled branch of `run_with_shadow`. -/
def sampledShadowResult (task : TaskM) (env : ShadowEnvM) (baseline candidate : ShadowRunM) :
    ShadowResultM :=
  let delta_ms := env.cand_ms - env.base_ms
  let overhead_pct : ℚ := if env.base_ms ≤ 0 then 0 else delta_ms / env.base_ms
  let guardrail_payload := evaluateGuardrails (collectGuardrailMetrics baseline env.base_ms)
  let outcome := shadowOutcome task baseline candidate env.base_ms
  let taxonomy_entry := outcome.1
  let severity := outcomeSeverity taxonomy_entry
  let kind := outcomeKind taxonomy_entry
  let solved_ref :=
    match extractSolvedRef candidate.result with
    | some r => some r
    | none => extractSolvedRef baseline.result
  let event := buildShadowEvent task env taxonomy_entry outcome.2.1 outcome.2.2
    task.metadata_puzzle_digest (solved_ref.getD "")
    (solveTraceDigest (candPayload candidate))
    (stateHashDigest (candPayload candidate) task.complete_artifact) env.envelope_jcs
    guardrail_payload
  let fallback : Bool :=
    match task.guardrail with
    | some g => g ⟨severity, kind, env.base_ms, env.cand_ms, delta_ms, overhead_pct⟩
    | none => severity = "CRITICAL" ∧ task.allow_fallback
  { sampled := true, severity, kind, baseline_digest := some (jcsSha256 baseline.result),
    candidate_digest := jcsSha256 candidate.result,
    returned := if fallback then baseline else candidate,
    baseline := some baseline, candidate, fallback_used := fallback,
    logged := decide (taxonomy_entry.isSome ∧ task.log_mismatch),
    timings := ⟨env.base_ms, env.cand_ms, delta_ms, overhead_pct⟩, event,
    taxonomy := taxonomy_entry }

/-- `shadow_compare.run_with_shadow`.  The runners are `Except`-valued: a
raising candidate or baseline runner propagates out (there is no handler
in the source). -/
def runWithShadow (task : TaskM) (env : ShadowEnvM) : Except String ShadowResultM :=
  match task.candidate_runner with
  | .error e => .error e
  | .ok candidate =>
    let sampled := hit task.hash_salt task.run_id task.metadata_puzzle_digest
      task.sample_rate task.sticky
    if ¬sampled then .ok (skippedShadowResult task env candidate)
    else
      match task.baseline_runner with
      | .error e => .error e
      | .ok baseline => .ok (sampledShadowResult task env baseline candidate)

/-! ## Pipeline orchestrator control flow (embedding of
`orchestrator/orchestrator.py`, `run_pipeline` and `main`)

Each stage couples a collaborator-port call, envelope assembly,
`assert_valid` and the store write; the embedding abstracts every such
stage into one `Except`-valued outcome supplied by a `PipelineWorld`, and
records the externally visible effects (artifact persisted, shadow
subsystem consulted, printer port invoked) in source order.  The
configuration fields mirror the values `run_pipeline` reads from the
resolved shadow policy and the environment. -/

inductive PEvent where
  | stored (t : String)
  | shadowChecked
  | printerInvoked
deriving DecidableEq

structure PipelineResults where
  spec_id : String
  complete_id : String
  verdict_id : String
  bundle_id : String
  pdf_path : String
deriving DecidableEq

structure PipelineWorld where
  profile : String
  shadow_policy_enabled : Bool
  shadow_flag_enabled : Bool
  hash_salt : String
  finaliseSpec : Except PyError String
  finaliseComplete : Except PyError String
  finaliseVerdict : Except PyError String
  finaliseBundle : Except PyError String
  shadowCheck : Except PyError (List (String × JVal))
  checkRefs : Except PyError ValidationReport
  printer : Except PyError (String × Int)

/-- `run_pipeline`: stage order, the prod hash-salt guard after the
Verdict stage, the shadow consultation, the cross-reference gate, and the
printer invocation.  Returns the effect trace together with the outcome. -/
def runPipeline (w : PipelineWorld) : List PEvent × Except PyError PipelineResults :=
  match w.finaliseSpec with
  | .error e => ([], .error e)
  | .ok spec_id =>
    match w.finaliseComplete with
    | .error e => ([.stored "Spec"], .error e)
    | .ok complete_id =>
      match w.finaliseVerdict with
      | .error e => ([.stored "Spec", .stored "CompleteGrid"], .error e)
      | .ok verdict_id =>
        let events3 : List PEvent := [.stored "Spec", .stored "CompleteGrid", .stored "Verdict"]
        let shadow_enabled := w.shadow_policy_enabled || w.shadow_flag_enabled
        if shadow_enabled ∧ strLower w.profile = "prod" ∧ w.hash_salt = "" then
          (events3, .error (.runtimeError "Shadow hash_salt must be configured for prod profile"))
        else
          match (if shadow_enabled then w.shadowCheck.map some else .ok none) with
          | .error e => (events3, .error e)
          | .ok _ =>
            let events4 := events3 ++ (if shadow_enabled then [.shadowChecked] else [])
            match w.finaliseBundle with
            | .error e => (events4, .error e)
            | .ok bundle_id =>
              let events5 := events4 ++ [.stored "ExportBundle"]
              match w.checkRefs with
              | .error e => (events5, .error e)
              | .ok report =>
                if ¬report.ok then
                  (events5, .error (.managedValidationError
                    "Export bundle failed cross-reference check"))
                else
                  match w.printer with
                  | .error e => (events5 ++ [.printerInvoked], .error e)
                  | .ok res =>
                    (events5 ++ [.printerInvoked],
                     .ok ⟨spec_id, complete_id, verdict_id, bundle_id, res.1⟩)

/-- `orchestrator.main`: a `RuntimeError` from `run_pipeline` is routed to
`parser.error`, which exits with status 2; success exits 0; any other
exception leaves the interpreter with status 1.  (The source imports
`ManagedValidationError` from `contracts.errors`, which does not define
it; in the embedding it is simply a distinct error kind that never
reaches the `RuntimeError` handler.) -/
def mainExitCode (w : PipelineWorld) : Nat :=
  match (runPipeline w).2 with
  | .ok _ => 0
  | .error (.runtimeError _) => 2
  | .error _ => 1

/-! ## Semantic equivalence of JSON values (for the canonical-codec
contract)

`JEquiv nfc` is the code-faithful equivalence: values may differ in
mapping entry order and in the Unicode composition of *string values*
(two strings are interchangeable when `nfc` agrees on them), while
mapping keys must agree as raw strings — `_normalize` sorts and emits
keys without normalising them.  `NFCKeyEquiv nfc` follows the spec
wording instead and also allows keys to differ in Unicode composition.
`JWF` is the Python-dict well-formedness invariant: every mapping holds
pairwise distinct keys. -/

inductive JEquiv (nfc : String → String) : JVal → JVal → Prop where
  | nullE : JEquiv nfc .jnull .jnull
  | boolE (b : Bool) : JEquiv nfc (.jbool b) (.jbool b)
  | intE (n : Int) : JEquiv nfc (.jint n) (.jint n)
  | strE {s t : String} : nfc s = nfc t → JEquiv nfc (.jstr s) (.jstr t)
  | arrE {l m : JList} :
      List.Forall₂ (JEquiv nfc) (JList.toList l) (JList.toList m) →
      JEquiv nfc (.jarr l) (.jarr m)
  | objE {l m : JPairs} (m' : List (String × JVal)) :
      (JPairs.toList m).Perm m' →
      (JPairs.toList l).map Prod.fst = m'.map Prod.fst →
      List.Forall₂ (JEquiv nfc) ((JPairs.toList l).map Prod.snd) (m'.map Prod.snd) →
      JEquiv nfc (.jobj l) (.jobj m)

inductive NFCKeyEquiv (nfc : String → String) : JVal → JVal → Prop where
  | nullE : NFCKeyEquiv nfc .jnull .jnull
  | boolE (b : Bool) : NFCKeyEquiv nfc (.jbool b) (.jbool b)
  | intE (n : Int) : NFCKeyEquiv nfc (.jint n) (.jint n)
  | strE {s t : String} : nfc s = nfc t → NFCKeyEquiv nfc (.jstr s) (.jstr t)
  | arrE {l m : JList} :
      List.Forall₂ (NFCKeyEquiv nfc) (JList.toList l) (JList.toList m) →
      NFCKeyEquiv nfc (.jarr l) (.jarr m)
  | objE {l m : JPairs} (m' : List (String × JVal)) :
      (JPairs.toList m).Perm m' →
      (JPairs.toList l).map (fun p => nfc p.1) = m'.map (fun p => nfc p.1) →
      List.Forall₂ (NFCKeyEquiv nfc) ((JPairs.toList l).map Prod.snd) (m'.map Prod.snd) →
      NFCKeyEquiv nfc (.jobj l) (.jobj m)

inductive JWF : JVal → Prop where
  | nullW : JWF .jnull
  | boolW (b : Bool) : JWF (.jbool b)
  | intW (n : Int) : JWF (.jint n)
  | strW (s : String) : JWF (.jstr s)
  | arrW {l : JList} : (∀ x ∈ JList.toList l, JWF x) → JWF (.jarr l)
  | objW {l : JPairs} : (∀ p ∈ JPairs.toList l, JWF p.2) →
      ((JPairs.toList l).map Prod.fst).Nodup → JWF (.jobj l)

/-- The spec wording of the Verdict XOR invariant: exactly one of the two
input references is set as a non-empty string. -/
def specExactlyOneRef (a : Obj) : Prop :=
  ([a.lookup "candidate_ref", a.lookup "solved_ref"].countP
    (fun o => (nonemptyStr o).isSome)) = 1

/-! ## Concrete inputs used by counterexamples and witnesses. -/

def okReport : ValidationReport :=
  ⟨true, [], [], [("schema", 0), ("invariants", 0), ("crossrefs", 0)]⟩

def badRefsReport : ValidationReport :=
  ⟨false,
   [makeError "crossref.spec_mismatch"
     "complete_ref spec_ref \x27sha256-other\x27 does not match bundle spec_ref \x27sha256-spec\x27"
     "$.inputs.complete_ref"],
   [], [("schema", 0), ("invariants", 0), ("crossrefs", 0)]⟩

/-- A pipeline world in which every collaborator is stipulated to
succeed.  Such worlds are hypothetical in the shipped code — every
`_finalise_and_store` stage in fact raises the `run_crossrefs`
`TypeError` inside `assert_valid` (the C2 defect) — and serve only to
state conditional control-flow contracts of `run_pipeline` itself. -/
def baseWorld : PipelineWorld :=
  { profile := "dev", shadow_policy_enabled := false, shadow_flag_enabled := false,
    hash_salt := "", finaliseSpec := .ok "sha256-spec", finaliseComplete := .ok "sha256-complete",
    finaliseVerdict := .ok "sha256-verdict", finaliseBundle := .ok "sha256-bundle",
    shadowCheck := .ok [], checkRefs := .ok okReport,
    printer := .ok ("exports/sudoku.pdf", 12) }

/-- The bundle cross-reference check fails. -/
def wRefsFail : PipelineWorld := { baseWorld with checkRefs := .ok badRefsReport }

def refX : String :=
  "sha256-aaaaaaaaaaaaaaaaaaaaaaaaaaaaaaaaaaaaaaaaaaaaaaaaaaaaaaaaaaaaaaaa"

/-- Scenario S2 candidate: `\x7bunique: true, solved_ref: X\x7d`. -/
def candRun1 : ShadowRunM :=
  { verdict := "ok",
    result := .jobj (JPairs.ofList [("unique", .jbool true), ("solved_ref", .jstr refX)]) }

/-- Scenario S2 shadow baseline: `\x7bunique: false, candidate_ref: X\x7d`. -/
def baseRun1 : ShadowRunM :=
  { verdict := "unsolved",
    result := .jobj (JPairs.ofList [("unique", .jbool false), ("candidate_ref", .jstr refX)]) }

def envStd : ShadowEnvM :=
  { cand_ms := 10, base_ms := 5,
    commit_sha_repo := "0123456789abcdef0123456789abcdef01234567",
    hw_fingerprint := "abcdef0123456789",
    ts := "2023-01-01T00:00:00.000Z",
    envelope_jcs := "bbbbbbbbbbbbbbbbbbbbbbbbbbbbbbbbbbbbbbbbbbbbbbbbbbbbbbbbbbbbbbbb" }

/-- S2 task: rate 1 (always sampled), no caller guardrail, fallback allowed. -/
def task1 : TaskM :=
  { run_id := "run-1", stage := "solver:check_uniqueness", seed := "seed-1",
    module_id := "sudoku-9x9:solver", profile := "dev", sample_rate := 1,
    sample_rate_str := "1", hash_salt := some "salt",
    metadata_puzzle_digest :=
      some "cccccccccccccccccccccccccccccccccccccccccccccccccccccccccccccccc",
    baseline_runner := .ok baseRun1, candidate_runner := .ok candRun1 }

/-- A task whose baseline runner raises. -/
def task9 : TaskM := { task1 with baseline_runner := .error "solver exploded" }

/-- Scenario S4 baseline payload: all three guardrail budgets exceeded. -/
def baseRun5 : ShadowRunM :=
  { verdict := "ok",
    result := .jobj (JPairs.ofList
      [("unique", .jbool true), ("grid", .jstr "1"), ("time_ms", .jint 2500),
       ("nodes", .jint 300000), ("bt_depth", .jint 70)]) }

def candRun5 : ShadowRunM :=
  { verdict := "ok",
    result := .jobj (JPairs.ofList
      [("unique", .jbool true), ("grid", .jstr "1"), ("time_ms", .jint 10)]) }

/-- S4 task. -/
def task5 : TaskM :=
  { task1 with baseline_runner := .ok baseRun5, candidate_runner := .ok candRun5 }

/-- A well-formed Verdict artifact (valid envelope and invariants). -/
def verdictArtifact : JVal :=
  .jobj (JPairs.ofList
    [("type", .jstr "Verdict"), ("schema_version", .jstr "1.0.0"),
     ("schema_id", .jstr "sudoku.Verdict"), ("schema_path", .jstr "schemas/Verdict.json"),
     ("artifact_id", .jstr refX),
     ("created_at", .jstr "2023-01-01T00:00:00.000Z"), ("puzzle_type", .jstr "sudoku"),
     ("spec_ref", .jstr "sha256-spec"), ("run_id", .jstr "run-1"), ("seed", .jstr "seed-1"),
     ("stage", .jstr "stage.solve.verify"),
     ("parents", .jarr (JList.ofList [.jstr "sha256-spec", .jstr "sha256-complete"])),
     ("metrics", .jobj (JPairs.ofList [("time_ms", .jint 3)])),
     ("warnings", .jarr .nil), ("errors", .jarr .nil), ("ext", .jobj .nil),
     ("unique", .jbool true), ("time_ms", .jint 5), ("solved_ref", .jstr refX)])

/-- A Verdict payload with `unique = true` and only `candidate_ref` set. -/
def verdictUniqueCandidate : Obj :=
  [("type", .jstr "Verdict"), ("unique", .jbool true), ("candidate_ref", .jstr refX),
   ("time_ms", .jint 5)]

/-- A Verdict payload with both references set. -/
def verdictBothRefs : Obj :=
  [("type", .jstr "Verdict"), ("unique", .jbool true), ("candidate_ref", .jstr refX),
   ("solved_ref", .jstr refX), ("time_ms", .jint 5)]

/-- The XOR violation issue emitted by `_verdict_xor`. -/
def xorIssue : ValidationIssue :=
  makeError "verdict.input_ref.xor_violation"
    "Exactly one of candidate_ref or solved_ref must be provided" "$.candidate_ref"

/-- Mapping whose single key is e followed by U+0301 (NFC-decomposed). -/
def objKeyDecomposed : List (String × JVal) := [("e\u0301", .jint 1)]

/-- Mapping whose single key is precomposed U+00E9. -/
def objKeyComposed : List (String × JVal) := [("\u00e9", .jint 1)]

/-- Mapping with NFC-decomposed string value, one key order. -/
def objValDecomposed : List (String × JVal) :=
  [("alpha", .jint 7), ("beta", .jstr "e\u0301")]

/-- The same mapping with reordered keys and the precomposed value. -/
def objValComposed : List (String × JVal) :=
  [("beta", .jstr "\u00e9"), ("alpha", .jint 7)]

instance exceptDecEq {ε α : Type} [DecidableEq ε] [DecidableEq α] :
    DecidableEq (Except ε α) := fun a b =>
  match a, b with
  | .error e₁, .error e₂ =>
    if h : e₁ = e₂ then isTrue (by rw [h]) else isFalse (by intro hc; cases hc; exact h rfl)
  | .ok v₁, .ok v₂ =>
    if h : v₁ = v₂ then isTrue (by rw [h]) else isFalse (by intro hc; cases hc; exact h rfl)
  | .error _, .ok _ => isFalse (by intro hc; cases hc)
  | .ok _, .error _ => isFalse (by intro hc; cases hc)

def dummyRun : ShadowRunM := ⟨"", .jnull, none, none⟩

def dummyResult : ShadowResultM :=
  ⟨false, "", "", none, "", dummyRun, none, dummyRun, false, false, ⟨0, 0, 0, 0⟩, [], none⟩

/-- The shadow result of scenario S2. -/
def res1 : ShadowResultM := (runWithShadow task1 envStd).toOption.getD dummyResult

/-- The shadow result of scenario S4. -/
def res5 : ShadowResultM := (runWithShadow task5 envStd).toOption.getD dummyResult

/-! ## Order lemmas for the canonical key sort. -/

theorem charListLt_asymm : ∀ (a b : List Char), charListLt a b = true → charListLt b a = false
  | [], [] => by simp [charListLt]
  | [], _ :: _ => by simp [charListLt]
  | _ :: _, [] => by simp [charListLt]
  | x :: xs, y :: ys => by
    simp only [charListLt]
    intro h
    by_cases hxy : x < y
    · simp [lt_asymm hxy, hxy]
    · by_cases hyx : y < x
      · simp [hxy, hyx] at h
      · simp [hxy, hyx] at h ⊢
        exact charListLt_asymm xs ys h

theorem charListLt_trans :
    ∀ (a b c : List Char), charListLt a b = true → charListLt b c = true →
      charListLt a c = true
  | [], b, c => by
    intro h₁ h₂
    cases c with
    | nil => cases b <;> simp [charListLt] at h₂
    | cons _ _ => simp [charListLt]
  | x :: xs, b, c => by
    intro h₁ h₂
    cases b with
    | nil => simp [charListLt] at h₁
    | cons y ys =>
      cases c with
      | nil => simp [charListLt] at h₂
      | cons z zs =>
        simp only [charListLt] at h₁ h₂ ⊢
        by_cases hxy : x < y
        · by_cases hyz : y < z
          · simp [lt_trans hxy hyz]
          · by_cases hzy : z < y
            · simp [hyz, hzy] at h₂
            · have : y = z := le_antisymm (not_lt.mp hzy) (not_lt.mp hyz)
              subst this
              simp [hxy]
        · by_cases hyx : y < x
          · simp [hxy, hyx] at h₁
          · have hxy' : x = y := le_antisymm (not_lt.mp hyx) (not_lt.mp hxy)
            subst hxy'
            simp [lt_irrefl] at h₁
            by_cases hyz : x < z
            · simp [hyz]
            · by_cases hzy : z < x
              · simp [hyz, hzy] at h₂
              · simp [hyz, hzy] at h₂ ⊢
                exact charListLt_trans xs ys zs h₁ h₂

theorem charListLt_eq_of_not :
    ∀ (a b : List Char), charListLt a b = false → charListLt b a = false → a = b
  | [], [] => by intro _ _; rfl
  | [], _ :: _ => by simp [charListLt]
  | _ :: _, [] => by simp [charListLt]
  | x :: xs, y :: ys => by
    intro h₁ h₂
    simp only [charListLt] at h₁ h₂
    by_cases hxy : x < y
    · simp [hxy] at h₁
    · by_cases hyx : y < x
      · simp [hxy, hyx] at h₂
      · have hx : x = y := le_antisymm (not_lt.mp hyx) (not_lt.mp hxy)
        subst hx
        simp [hxy] at h₁ h₂
        exact congrArg (x :: ·) (charListLt_eq_of_not xs ys h₁ h₂)

theorem strLt_asymm {a b : String} (h : strLt a b = true) : strLt b a = false :=
  charListLt_asymm a.data b.data h

theorem strLt_eq_of_not {a b : String} (h₁ : strLt a b = false) (h₂ : strLt b a = false) :
    a = b := by
  cases a with
  | mk da =>
    cases b with
    | mk db => exact congrArg String.mk (charListLt_eq_of_not da db h₁ h₂)

instance keyLeTotal {α : Type} :
    IsTotal (String × α) (fun p q => strLt q.1 p.1 = false) := by
  constructor
  intro p q
  by_cases h : strLt q.1 p.1 = true
  · right
    exact strLt_asymm h
  · left
    exact Bool.not_eq_true _ ▸ h

instance keyLeTrans {α : Type} :
    IsTrans (String × α) (fun p q => strLt q.1 p.1 = false) := by
  constructor
  intro a b c h₁ h₂
  by_cases hca : strLt c.1 a.1 = true
  · by_cases hbc : strLt b.1 c.1 = true
    · have := charListLt_trans _ _ _ hbc hca
      rw [strLt] at h₁
      rw [this] at h₁
      cases h₁
    · have hb : b.1 = c.1 :=
        strLt_eq_of_not (Bool.not_eq_true _ ▸ hbc) h₂
      rw [← hb] at hca
      rw [hca] at h₁
      cases h₁
  · exact Bool.not_eq_true _ ▸ hca

theorem sortByKey_perm {α : Type} (l : List (String × α)) : List.Perm (sortByKey l) l :=
  List.perm_insertionSort _ l

theorem sortByKey_sorted {α : Type} (l : List (String × α)) :
    List.Sorted (fun p q => strLt q.1 p.1 = false) (sortByKey l) :=
  List.sorted_insertionSort _ l

theorem sorted_strict_of_nodup {α : Type} {s : List (String × α)}
    (hs : List.Sorted (fun p q => strLt q.1 p.1 = false) s)
    (hn : (s.map Prod.fst).Nodup) :
    List.Sorted (fun p q : String × α => strLt p.1 q.1 = true) s := by
  have hne : List.Pairwise (fun p q : String × α => p.1 ≠ q.1) s := by
    rw [List.Nodup, List.pairwise_map] at hn
    exact hn
  refine (hs.and hne).imp ?_
  rintro p q ⟨hle, hneq⟩
  by_cases h : strLt p.1 q.1 = true
  · exact h
  · exact absurd (strLt_eq_of_not (Bool.not_eq_true _ ▸ h) hle) hneq

theorem sortByKey_eq_of_perm {α : Type} {l₁ l₂ : List (String × α)} (h : List.Perm l₁ l₂)
    (hn : (l₁.map Prod.fst).Nodup) : sortByKey l₁ = sortByKey l₂ := by
  haveI : IsAntisymm (String × α) (fun p q : String × α => strLt p.1 q.1 = true) := by
    constructor
    intro a b h₁ h₂
    have := strLt_asymm h₁
    rw [this] at h₂
    cases h₂
  have hperm : List.Perm (sortByKey l₁) (sortByKey l₂) :=
    ((sortByKey_perm l₁).trans h).trans (sortByKey_perm l₂).symm
  have hn₁ : ((sortByKey l₁).map Prod.fst).Nodup :=
    (hn.perm ((sortByKey_perm l₁).map Prod.fst).symm)
  have hn₂ : ((sortByKey l₂).map Prod.fst).Nodup :=
    (hn₁.perm (hperm.map Prod.fst))
  exact List.eq_of_perm_of_sorted hperm
    (sorted_strict_of_nodup (sortByKey_sorted l₁) hn₁)
    (sorted_strict_of_nodup (sortByKey_sorted l₂) hn₂)

/-! ## Byte bounds for SHA-256 output. -/

theorem natToBeBytes_mem_lt {n x b : Nat} (h : b ∈ natToBeBytes n x) : b < 256 := by
  simp only [natToBeBytes, List.mem_map] at h
  obtain ⟨i, _, rfl⟩ := h
  exact Nat.mod_lt _ (by norm_num)

theorem sha256_mem_lt {m : List Nat} {b : Nat} (h : b ∈ sha256 m) : b < 256 := by
  simp only [sha256, List.mem_flatten, List.mem_map] at h
  obtain ⟨l, ⟨w, _, rfl⟩, hbl⟩ := h
  exact natToBeBytes_mem_lt hbl

theorem foldl_be_lt :
    ∀ (bs : List Nat) (acc : Nat), (∀ b ∈ bs, b < 256) →
      List.foldl (fun a b => a * 256 + b) acc bs < (acc + 1) * 256 ^ bs.length
  | [], acc => by simp
  | b :: r, acc => by
    intro h
    have hb : b < 256 := h b (by simp)
    have ih := foldl_be_lt r (acc * 256 + b) (fun x hx => h x (by simp [hx]))
    simp only [List.foldl_cons, List.length_cons]
    calc List.foldl (fun a b => a * 256 + b) (acc * 256 + b) r
        < (acc * 256 + b + 1) * 256 ^ r.length := ih
      _ ≤ ((acc + 1) * 256) * 256 ^ r.length := by
          have : acc * 256 + b + 1 ≤ (acc + 1) * 256 := by nlinarith
          exact Nat.mul_le_mul_right _ this
      _ = (acc + 1) * 256 ^ (r.length + 1) := by ring

theorem beBytesToNat_lt {bs : List Nat} (h : ∀ b ∈ bs, b < 256) :
    beBytesToNat bs < 256 ^ bs.length := by
  have := foldl_be_lt bs 0 h
  simpa [beBytesToNat] using this

theorem sha_u64_lt (m : List Nat) : beBytesToNat ((sha256 m).take 8) < 2 ^ 64 := by
  have hb : ∀ b ∈ (sha256 m).take 8, b < 256 :=
    fun b hb => sha256_mem_lt (List.take_subset _ _ hb)
  have h1 := beBytesToNat_lt hb
  have h2 : (256 : Nat) ^ ((sha256 m).take 8).length ≤ 256 ^ 8 := by
    apply Nat.pow_le_pow_right (by norm_num)
    simp [List.length_take]
  calc beBytesToNat ((sha256 m).take 8) < 256 ^ ((sha256 m).take 8).length := h1
    _ ≤ 256 ^ 8 := h2
    _ = 2 ^ 64 := by norm_num

/-- Claim C4: the sampler `hit` decides exactly
`u64 < floor(rate * 2^64)` where `u64` is the big-endian value of the
first eight digest bytes of the sampling material; a rate at or below
zero never hits, a rate at or above one always hits, and under sticky
sampling the decision does not depend on the run id. -/
theorem hit_spec (hash_salt : Option String) (run_id : String)
    (puzzle_digest : Option String) (rate : ℚ) (sticky : Bool) :
    (hit hash_salt run_id puzzle_digest rate sticky =
      decide ((beBytesToNat ((sha256 (materialise hash_salt run_id puzzle_digest
        sticky)).take 8) : ℤ) < ⌊rate * 2 ^ 64⌋)) ∧
    (rate ≤ 0 → hit hash_salt run_id puzzle_digest rate sticky = false) ∧
    (1 ≤ rate → hit hash_salt run_id puzzle_digest rate sticky = true) ∧
    (∀ r₁ r₂ : String, hit hash_salt r₁ puzzle_digest rate true =
      hit hash_salt r₂ puzzle_digest rate true) := by
  have hu : ∀ s r p st, (beBytesToNat ((sha256 (materialise s r p st)).take 8) : ℤ) < 2 ^ 64 := by
    intro s r p st
    exact_mod_cast sha_u64_lt (materialise s r p st)
  have main : ∀ s r p st, hit s r p rate st =
      decide ((beBytesToNat ((sha256 (materialise s r p st)).take 8) : ℤ) <
        ⌊rate * 2 ^ 64⌋) := by
    intro s r p st
    by_cases h0 : rate ≤ 0
    · have hf : ⌊rate * 2 ^ 64⌋ ≤ 0 := by
        have : rate * 2 ^ 64 ≤ 0 := by
          apply mul_nonpos_of_nonpos_of_nonneg h0
          positivity
        calc ⌊rate * 2 ^ 64⌋ ≤ ⌊(0 : ℚ)⌋ := Int.floor_le_floor this
          _ = 0 := Int.floor_zero
      have : ¬((beBytesToNat ((sha256 (materialise s r p st)).take 8) : ℤ) <
          ⌊rate * 2 ^ 64⌋) := by
        intro hcontra
        have hnn : (0 : ℤ) ≤ (beBytesToNat ((sha256 (materialise s r p st)).take 8) : ℤ) := by
          exact_mod_cast Nat.zero_le _
        omega
      simp [hit, h0, this]
    · by_cases h1 : 1 ≤ rate
      · have hf : (2 : ℤ) ^ 64 ≤ ⌊rate * 2 ^ 64⌋ := by
          have h2 : ((2 : ℤ) ^ 64 : ℚ) ≤ rate * 2 ^ 64 := by
            push_cast
            nlinarith
          exact Int.le_floor.mpr h2
        have := hu s r p st
        simp only [hit, h0, if_false, h1, if_true]
        have hlt : (beBytesToNat ((sha256 (materialise s r p st)).take 8) : ℤ) <
            ⌊rate * 2 ^ 64⌋ := by omega
        simp [hlt]
      · simp [hit, h0, h1]
  refine ⟨main _ _ _ _, ?_, ?_, ?_⟩
  · intro h0
    simp [hit, h0]
  · intro h1
    have h0 : ¬(rate ≤ 0) := by
      intro h
      have : (1 : ℚ) ≤ 0 := le_trans h1 h
      norm_num at this
    simp [hit, h0, h1]
  · intro r₁ r₂
    have hm : materialise hash_salt r₁ puzzle_digest true =
        materialise hash_salt r₂ puzzle_digest true := by
      simp [materialise]
    simp [hit, hm]

/-! ## Association-list lookup over appends. -/

theorem lookupAppend (l₁ l₂ : List (String × JVal)) (k : String) :
    (l₁ ++ l₂).lookup k =
      match l₁.lookup k with
      | some v => some v
      | none => l₂.lookup k := by
  induction l₁ with
  | nil => simp
  | cons p t ih =>
    cases p with
    | mk a b =>
      by_cases h : k = a
      · subst h
        simp [List.lookup]
      · have hba : (k == a) = false := by
          simp [h]
        simp [List.lookup, hba, ih]

/-- Claim C10: the JSONL payload written by `append_event` holds every
key/value pair of the input unchanged, gains a wall-clock `ts` entry
exactly when the input lacks a `ts` key, and nothing else is added,
removed or altered; the input mapping is not mutated (the embedding is a
pure function of the input, mirroring the `dict(event)` copy the source
takes). -/
theorem appendEvent_frame (now : String) (event : List (String × JVal)) :
    (∀ k, k ≠ "ts" → (appendEventPayload now event).lookup k = event.lookup k) ∧
    (event.lookup "ts" = none →
      (appendEventPayload now event).lookup "ts" = some (.jstr now)) ∧
    (∀ v, event.lookup "ts" = some v → (appendEventPayload now event).lookup "ts" = some v) ∧
    ((appendEventPayload now event).map Prod.fst =
      event.map Prod.fst ++ (if event.lookup "ts" = none then ["ts"] else [])) := by
  by_cases h : (event.lookup "ts").isSome
  · have hne : ¬(event.lookup "ts" = none) := by
      intro hcontra
      rw [hcontra] at h
      simp at h
    refine ⟨fun k _ => ?_, fun hcontra => absurd hcontra hne, fun v hv => ?_, ?_⟩
    · simp [appendEventPayload, h]
    · simp [appendEventPayload, h, hv]
    · simp [appendEventPayload, h, hne]
  · have hnone : event.lookup "ts" = none := by
      cases heq : event.lookup "ts" with
      | none => rfl
      | some v => rw [heq] at h; simp at h
    refine ⟨fun k hk => ?_, fun _ => ?_, fun v hv => ?_, ?_⟩
    · have hk' : (k == "ts") = false := by simp [hk]
      simp [appendEventPayload, h, lookupAppend, List.lookup, hk']
      cases event.lookup k <;> simp
    · simp [appendEventPayload, h, lookupAppend, hnone, List.lookup]
    · rw [hnone] at hv
      cases hv
    · simp [appendEventPayload, h, hnone]

/-- Claim C7: whenever the export bundle cross-reference check fails
(report not ok, or the check itself raises), `run_pipeline` aborts before
the printer port is invoked, so no PDF is produced. -/
theorem export_gate (w : PipelineWorld)
    (hfail : ∀ r, w.checkRefs = .ok r → r.ok = false) :
    PEvent.printerInvoked ∉ (runPipeline w).1 ∧
      ∀ res, (runPipeline w).2 ≠ .ok res := by
  unfold runPipeline
  rcases h1 : w.finaliseSpec with e | spec_id
  · simp
  · rcases h2 : w.finaliseComplete with e | cid
    · simp
    · rcases h3 : w.finaliseVerdict with e | vid
      · simp
      · simp only []
        by_cases h4 : (w.shadow_policy_enabled || w.shadow_flag_enabled) = true ∧
            strLower w.profile = "prod" ∧ w.hash_salt = ""
        · simp [h4]
        · simp only [h4, if_false]
          rcases h5 : (if (w.shadow_policy_enabled || w.shadow_flag_enabled) = true then
              w.shadowCheck.map some else .ok none) with e | sres
          · simp
          · rcases h6 : w.finaliseBundle with e | bid
            · simp
            · rcases h7 : w.checkRefs with e | r
              · simp
              · have hr : r.ok = false := hfail r h7
                simp [hr]

/-- Witness for `export_gate` at `wRefsFail`, where the check returns a
report with `ok = false`. -/
theorem export_gate_witness :
    PEvent.printerInvoked ∉ (runPipeline wRefsFail).1 ∧
      ∀ res, (runPipeline wRefsFail).2 ≠ .ok res :=
  export_gate wRefsFail (fun r hr => by
    have h2 : wRefsFail.checkRefs = Except.ok badRefsReport := rfl
    rw [h2] at hr
    cases hr
    rfl)

/-- Claim C8 (code bug): the prod missing-salt configuration guard is
unreachable.  The spec promises a fatal configuration error at pipeline
start, before any stage artifact is produced, surfaced as CLI exit
code 2; in the code the guard sits at `orchestrator.py:340-341`, after
three `_finalise_and_store` calls and gated on the shadow subsystem
being enabled — and no run ever reaches it.  Each `_finalise_and_store`
calls `assert_valid` on a mapping artifact, every shipped profile
enables cross-reference checks, so `validate` raises the
`run_crossrefs` `TypeError` (the C2 defect) already at the Spec stage
(first conjunct).  `main` catches only `RuntimeError` (routing it to
`parser.error`, which exits with status 2), so the `TypeError`
terminates the run with no artifact stored, no configuration error and
interpreter exit status 1, not 2 (second conjunct). -/
theorem prod_salt_guard_unreachable :
    (∀ (p : JPairs) (r : Option Resolver) (pr : ProfileConfig),
      pr = devProfile ∨ pr = ciProfile ∨ pr = prodProfile →
      assertValidE (.jobj p) "Spec" pr r =
        .error (.typeError
          "run_crossrefs() missing 1 required positional argument: \x27profile\x27")) ∧
    (∀ (w : PipelineWorld) (msg : String),
      w.finaliseSpec = .error (.typeError msg) →
      runPipeline w = ([], .error (.typeError msg)) ∧ mainExitCode w = 1) := by
  constructor
  · intro p r pr hpr
    rcases hpr with h | h | h <;> subst h <;> rfl
  · intro w msg h
    have hrun : runPipeline w = ([], .error (.typeError msg)) := by
      unfold runPipeline
      rw [h]
    refine ⟨hrun, ?_⟩
    unfold mainExitCode
    rw [hrun]

/-- Claim C6, counterexample: a Verdict with `unique = true` and only
`candidate_ref` set passes every Verdict invariant of the validation
center — the `unique implies solved_ref` clause of the claim is not
checked anywhere in the rulebook. -/
theorem verdict_xor_counterexample :
    runInvariants verdictUniqueCandidate none devProfile = [] ∧
    verdictUniqueCandidate.lookup "unique" = some (.jbool true) ∧
    nonemptyStr (verdictUniqueCandidate.lookup "solved_ref") = none ∧
    (nonemptyStr (verdictUniqueCandidate.lookup "candidate_ref")).isSome = true := by
  refine ⟨by decide, by decide, by decide, by decide⟩

/-- Claim C6, amended: the validation center emits
`verdict.input_ref.xor_violation` on a Verdict artifact exactly when it is
not the case that exactly one of `candidate_ref` / `solved_ref` is set as
a non-empty string; the `unique implies solved_ref` implication is not
enforced. -/
theorem verdict_xor_amended (a : Obj) (ctx : Option Obj)
    (ht : artifactTypeStr a = "Verdict") :
    (xorIssue ∈ runInvariants a ctx devProfile ↔ ¬ specExactlyOneRef a) := by
  have hlist : runInvariants a ctx devProfile =
      verdictXor a ctx devProfile ++ (verdictUnique a ctx devProfile ++
        (verdictTime a ctx devProfile ++ (verdictCutoff a ctx devProfile ++ []))) := by
    unfold runInvariants
    rw [ht]
    rfl
  have hB : xorIssue ∉ verdictUnique a ctx devProfile := by
    unfold verdictUnique
    split <;> decide
  have hC : xorIssue ∉ verdictTime a ctx devProfile := by
    unfold verdictTime
    split <;> (try split) <;> decide
  have hD : xorIssue ∉ verdictCutoff a ctx devProfile := by
    simp only [verdictCutoff]
    split <;> decide
  have hA : xorIssue ∈ verdictXor a ctx devProfile ↔ ¬ specExactlyOneRef a := by
    by_cases hc : ([a.lookup "candidate_ref", a.lookup "solved_ref"].countP
        (fun o => (nonemptyStr o).isSome)) = 1
    · simp [verdictXor, hc, specExactlyOneRef]
    · simp [verdictXor, hc, specExactlyOneRef, xorIssue, makeError]
  rw [hlist]
  simp only [List.mem_append, List.not_mem_nil, or_false]
  constructor
  · rintro (h | h | h | h)
    · exact hA.mp h
    · exact absurd h hB
    · exact absurd h hC
    · exact absurd h hD
  · intro h
    exact Or.inl (hA.mpr h)

/-- Witness for `verdict_xor_amended` at a Verdict carrying both
references: the XOR issue is emitted. -/
theorem verdict_xor_amended_witness :
    artifactTypeStr verdictBothRefs = "Verdict" ∧
    xorIssue ∈ runInvariants verdictBothRefs none devProfile ∧
    (xorIssue ∈ runInvariants verdictBothRefs none devProfile ↔
      ¬ specExactlyOneRef verdictBothRefs) :=
  ⟨rfl, by decide, verdict_xor_amended verdictBothRefs none rfl⟩

/-- Claim C2 (code bug): `validate` cannot return a report for any mapping
artifact.  Its crossref stage calls `rulebook.run_crossrefs` with three
positional arguments (`validator.py:245`) while the function requires
four (`rulebook.py:413`), so Python raises `TypeError` under every
shipped profile, and `assert_valid` propagates it; here evaluated on a
fully well-formed Verdict artifact. -/
theorem validate_raises_typeerror :
    validateE verdictArtifact "Verdict" devProfile none =
      .error (.typeError
        "run_crossrefs() missing 1 required positional argument: \x27profile\x27") ∧
    validateE verdictArtifact "Verdict" ciProfile none =
      .error (.typeError
        "run_crossrefs() missing 1 required positional argument: \x27profile\x27") ∧
    validateE verdictArtifact "Verdict" prodProfile none =
      .error (.typeError
        "run_crossrefs() missing 1 required positional argument: \x27profile\x27") ∧
    assertValidE verdictArtifact "Verdict" devProfile none =
      .error (.typeError
        "run_crossrefs() missing 1 required positional argument: \x27profile\x27") := by
  exact ⟨rfl, rfl, rfl, rfl⟩

/-- Claim C9, counterexample: on a sampled run whose baseline runner
raises, `run_with_shadow` propagates the exception — no C6 event is
produced and the candidate result is not returned. -/
theorem shadow_exception_counterexample :
    runWithShadow task9 envStd = .error "solver exploded" := by
  rfl

/-- Claim C9, amended: an exception from the shadow baseline runner on a
sampled run propagates out of the shadow runtime unchanged (there is no
handler around the baseline execution). -/
theorem shadow_exception_propagates (task : TaskM) (env : ShadowEnvM) (e : String)
    (c : ShadowRunM) (hc : task.candidate_runner = .ok c)
    (hb : task.baseline_runner = .error e)
    (hs : hit task.hash_salt task.run_id task.metadata_puzzle_digest task.sample_rate
      task.sticky = true) :
    runWithShadow task env = .error e := by
  unfold runWithShadow
  rw [hc, hb]
  simp only [hs, Bool.not_true, Bool.false_eq_true, if_false]
  rfl

/-- Witness for `shadow_exception_propagates` at `task9`. -/
theorem shadow_exception_propagates_witness :
    runWithShadow task9 envStd = .error "solver exploded" ∧ task9.sample_rate = 1 :=
  ⟨shadow_exception_propagates task9 envStd "solver exploded" candRun1 rfl rfl (by decide),
   rfl⟩

/-! ## Event payload key lemmas. -/

theorem skippedEvent_no_fallback (t : TaskM) (e : ShadowEnvM) (cd st sh ed : String) :
    (skippedEvent t e cd st sh ed).lookup "fallback_used" = none := by
  unfold skippedEvent
  rw [lookupAppend, lookupAppend]
  simp only [List.lookup]
  norm_num
  cases t.metadata_puzzle_digest with
  | none => simp [List.lookup]
  | some s =>
    by_cases hs : s = ""
    · simp [hs, List.lookup]
    · simp [hs, List.lookup]

theorem buildShadowEvent_no_fallback (task : TaskM) (env : ShadowEnvM)
    (tx : Option (String × String × String)) (vs ds : String) (pd : Option String)
    (srd std shd ed : String) (g : Option GPayload) :
    (buildShadowEvent task env tx vs ds pd srd std shd ed g).lookup "fallback_used" = none := by
  unfold buildShadowEvent
  rw [lookupAppend, lookupAppend]
  simp only [List.lookup]
  norm_num
  cases tx <;> cases g <;> simp [List.lookup]

theorem buildShadowEvent_status (task : TaskM) (env : ShadowEnvM)
    (tx : Option (String × String × String)) (vs ds : String) (pd : Option String)
    (srd std shd ed : String) (g : Option GPayload) :
    (buildShadowEvent task env tx vs ds pd srd std shd ed g).lookup "verdict_status" =
      some (.jstr vs) := by
  unfold buildShadowEvent
  rw [lookupAppend, lookupAppend]
  simp [List.lookup]

theorem buildShadowEvent_limit_hit (task : TaskM) (env : ShadowEnvM)
    (tx : Option (String × String × String)) (vs ds : String) (pd : Option String)
    (srd std shd ed : String) (g : GPayload) :
    (buildShadowEvent task env tx vs ds pd srd std shd ed (some g)).lookup "limit_hit" =
      some (.jstr g.limit_hit) := by
  unfold buildShadowEvent
  rw [lookupAppend, lookupAppend]
  simp only [List.lookup]
  norm_num
  cases tx <;> simp [List.lookup]

/-- In any successful pipeline run, the Verdict artifact id in the
results is the one finalised at stage 3 — the shadow subsystem outcome
never replaces it. -/
theorem verdictId_from_stage3 (w : PipelineWorld) (r : PipelineResults)
    (h : (runPipeline w).2 = .ok r) : w.finaliseVerdict = .ok r.verdict_id := by
  unfold runPipeline at h
  rcases h1 : w.finaliseSpec with e | sid
  · simp [h1] at h
  · simp only [h1] at h
    rcases h2 : w.finaliseComplete with e | cid
    · simp [h2] at h
    · simp only [h2] at h
      rcases h3 : w.finaliseVerdict with e | vid
      · simp [h3] at h
      · simp only [h3] at h
        cases hsh : (w.shadow_policy_enabled || w.shadow_flag_enabled) <;>
          simp only [hsh] at h
        · simp only [Bool.false_eq_true, false_and, if_false, ite_false] at h
          rcases h6 : w.finaliseBundle with e | bid
          · simp [h6] at h
          · simp only [h6] at h
            rcases h7 : w.checkRefs with e | rep
            · simp [h7] at h
            · simp only [h7] at h
              by_cases h8 : rep.ok = true
              · rcases h9 : w.printer with e | pr
                · simp [h8, h9] at h
                · simp [h8, h9] at h
                  subst h
                  simp
              · simp [h8] at h
        · by_cases h4 : strLower w.profile = "prod" ∧ w.hash_salt = ""
          · simp [h4] at h
          · simp only [true_and, h4, if_false, ite_false] at h
            rcases h5 : w.shadowCheck with e | out
            · simp [h5, Except.map] at h
            · simp only [h5, Except.map] at h
              rcases h6 : w.finaliseBundle with e | bid
              · simp [h6] at h
              · simp only [h6] at h
                rcases h7 : w.checkRefs with e | rep
                · simp [h7] at h
                · simp only [h7] at h
                  by_cases h8 : rep.ok = true
                  · rcases h9 : w.printer with e | pr
                    · simp [h8, h9] at h
                    · simp [h8, h9] at h
                      subst h
                      simp
                  · simp [h8] at h

theorem sampled_severity (task : TaskM) (env : ShadowEnvM) (b c : ShadowRunM) :
    (sampledShadowResult task env b c).severity =
      outcomeSeverity (shadowOutcome task b c env.base_ms).1 := by
  simp [sampledShadowResult]

theorem sampled_fallback_eq (task : TaskM) (env : ShadowEnvM) (b c : ShadowRunM)
    (hg : task.guardrail = none) :
    (sampledShadowResult task env b c).fallback_used =
      decide (outcomeSeverity (shadowOutcome task b c env.base_ms).1 = "CRITICAL" ∧
        task.allow_fallback = true) := by
  simp [sampledShadowResult, hg]

theorem sampled_returned (task : TaskM) (env : ShadowEnvM) (b c : ShadowRunM) :
    (sampledShadowResult task env b c).returned =
      (if (sampledShadowResult task env b c).fallback_used = true then b else c) := by
  simp [sampledShadowResult]

theorem sampled_event (task : TaskM) (env : ShadowEnvM) (b c : ShadowRunM) :
    (sampledShadowResult task env b c).event =
      buildShadowEvent task env (shadowOutcome task b c env.base_ms).1
        (shadowOutcome task b c env.base_ms).2.1 (shadowOutcome task b c env.base_ms).2.2
        task.metadata_puzzle_digest
        ((match extractSolvedRef c.result with
          | some r => some r
          | none => extractSolvedRef b.result).getD "")
        (solveTraceDigest (candPayload c)) (stateHashDigest (candPayload c) task.complete_artifact)
        env.envelope_jcs (evaluateGuardrails (collectGuardrailMetrics b env.base_ms)) := by
  simp [sampledShadowResult]

/-- C1 (amended): whenever a shadow comparison is sampled, no caller-supplied
guardrail callback is installed, the divergence severity is CRITICAL and
`allow_fallback` is true, `run_with_shadow` returns the baseline's (shadow's)
result, and the orchestrator's verdict artifact is the one finalised at stage 3
regardless of the shadow subsystem; otherwise the candidate's result is
returned.  Contrary to the spec, the emitted event does NOT record a
`fallback_used` key (`_build_shadow_event` writes no such field). -/
theorem shadow_fallback (task : TaskM) (env : ShadowEnvM) (res : ShadowResultM)
    (hg : task.guardrail = none)
    (h : runWithShadow task env = .ok res) :
    (res.sampled = true → res.severity = "CRITICAL" → task.allow_fallback = true →
      res.fallback_used = true ∧ res.baseline = some res.returned) ∧
    (res.sampled = true → ¬(res.severity = "CRITICAL" ∧ task.allow_fallback = true) →
      res.fallback_used = false ∧ res.returned = res.candidate) ∧
    res.event.lookup "fallback_used" = none ∧
    (∀ (w : PipelineWorld) (r : PipelineResults), (runPipeline w).2 = .ok r →
      w.finaliseVerdict = .ok r.verdict_id) := by
  unfold runWithShadow at h
  rcases hcr : task.candidate_runner with e | c
  · simp [hcr] at h
  · simp only [hcr] at h
    cases hsamp : hit task.hash_salt task.run_id task.metadata_puzzle_digest task.sample_rate
        task.sticky <;> simp only [hsamp, hg] at h
    · simp only [Bool.false_eq_true, not_false_iff, if_true, Except.ok.injEq] at h
      subst h
      refine ⟨?_, ?_, ?_, fun w r hw => verdictId_from_stage3 w r hw⟩
      · intro hs
        simp [skippedShadowResult] at hs
      · intro hs
        simp [skippedShadowResult] at hs
      · have he : (skippedShadowResult task env c).event = skippedEvent task env
            (jcsSha256 c.result) (solveTraceDigest (candPayload c))
            (stateHashDigest (candPayload c) task.complete_artifact) env.envelope_jcs := by
          simp [skippedShadowResult]
        rw [he]
        exact skippedEvent_no_fallback _ _ _ _ _ _
    · rcases hbr : task.baseline_runner with e | b
      · simp [hbr] at h
      · simp only [hbr, not_true, if_false, ite_false, Except.ok.injEq] at h
        subst h
        refine ⟨?_, ?_, ?_, fun w r hw => verdictId_from_stage3 w r hw⟩
        · intro _ hsev hall
          rw [sampled_severity] at hsev
          have hf : (sampledShadowResult task env b c).fallback_used = true := by
            rw [sampled_fallback_eq task env b c hg, hsev, hall]
            decide
          refine ⟨hf, ?_⟩
          rw [sampled_returned, hf]
          simp [sampledShadowResult]
        · intro _ hns
          have hf : (sampledShadowResult task env b c).fallback_used = false := by
            rw [sampled_fallback_eq task env b c hg]
            apply decide_eq_false
            intro hcontra
            apply hns
            rw [sampled_severity]
            exact hcontra
          refine ⟨hf, ?_⟩
          rw [sampled_returned, hf]
          simp [sampledShadowResult]
        · rw [sampled_event]
          exact buildShadowEvent_no_fallback _ _ _ _ _ _ _ _ _ _ _

theorem sampled_taxonomy (task : TaskM) (env : ShadowEnvM) (b c : ShadowRunM) :
    (sampledShadowResult task env b c).taxonomy = (shadowOutcome task b c env.base_ms).1 := by
  simp [sampledShadowResult]

theorem guardrailBreaches_ne_nil {m : GMetrics}
    (h : m.nodes > 200000 ∨ m.bt_depth > 60 ∨ m.time_ms > 2000) :
    guardrailBreaches m ≠ [] := by
  rcases h with h | h | h <;> simp [guardrailBreaches, h]

theorem sortedBreaches (m : GMetrics) :
    String.intercalate "+" (sortStrings (guardrailBreaches m).dedup) =
      String.intercalate "+"
        ((if m.bt_depth > 60 then ["bt_depth"] else []) ++
         (if m.nodes > 200000 then ["nodes"] else []) ++
         (if m.time_ms > 2000 then ["time_ms"] else [])) := by
  by_cases hn : m.nodes > 200000 <;> by_cases hd : m.bt_depth > 60 <;>
    by_cases ht : m.time_ms > 2000 <;>
    simp [guardrailBreaches, hn, hd, ht] <;> decide

theorem evaluateGuardrails_of_breach {m : GMetrics}
    (h : m.nodes > 200000 ∨ m.bt_depth > 60 ∨ m.time_ms > 2000) :
    evaluateGuardrails m = some ⟨m.nodes, m.bt_depth, m.time_ms,
      String.intercalate "+" (sortStrings (guardrailBreaches m).dedup)⟩ := by
  simp [evaluateGuardrails, guardrailBreaches_ne_nil h]


theorem runWithShadow_classifier_irrel (task : TaskM) (env : ShadowEnvM)
    (cls : Option (ShadowRunM → ShadowRunM → Option (String × String)))
    (b : ShadowRunM) (hbr : task.baseline_runner = .ok b)
    (hbreach : (collectGuardrailMetrics b env.base_ms).nodes > 200000 ∨
      (collectGuardrailMetrics b env.base_ms).bt_depth > 60 ∨
      (collectGuardrailMetrics b env.base_ms).time_ms > 2000) :
    runWithShadow { task with classifier := cls } env = runWithShadow task env := by
  have hg2 := evaluateGuardrails_of_breach hbreach
  simp only [runWithShadow]
  rcases hcr : task.candidate_runner with e | c
  · rfl
  · cases hsamp : hit task.hash_salt task.run_id task.metadata_puzzle_digest task.sample_rate
        task.sticky
    · simp [hsamp, skippedShadowResult, skippedEvent]
    · simp only [hsamp, not_true, if_false, ite_false, hbr]
      simp [sampledShadowResult, shadowOutcome, hg2, buildShadowEvent]


/-- C5: on every sampled (baseline, candidate) pair exactly one classification
outcome is produced (`match` with no taxonomy, `mismatch` with a taxonomy, or
`budget_exhausted` with taxonomy C4/MAJOR), and the guardrail supersedes
payload classification: if the baseline's self-reported `nodes > 200000`,
`bt_depth > 60` or `time_ms > 2000`, the event has
`verdict_status = "budget_exhausted"`, taxonomy code C4 with severity MAJOR,
and `limit_hit` equal to the names of the exceeded dimensions in alphabetical
order joined by `"+"`; moreover the payload classifier is never consulted. -/
theorem guardrail_supersedes (task : TaskM) (env : ShadowEnvM) (res : ShadowResultM)
    (b : ShadowRunM)
    (hbr : task.baseline_runner = .ok b)
    (h : runWithShadow task env = .ok res) (hs : res.sampled = true) :
    ((res.event.lookup "verdict_status" = some (.jstr "match") ∧ res.taxonomy = none) ∨
     (res.event.lookup "verdict_status" = some (.jstr "mismatch") ∧ res.taxonomy ≠ none) ∨
     (res.event.lookup "verdict_status" = some (.jstr "budget_exhausted") ∧
       ∃ reason, res.taxonomy = some ("C4", "MAJOR", reason))) ∧
    (((collectGuardrailMetrics b env.base_ms).nodes > 200000 ∨
      (collectGuardrailMetrics b env.base_ms).bt_depth > 60 ∨
      (collectGuardrailMetrics b env.base_ms).time_ms > 2000) →
      res.event.lookup "verdict_status" = some (.jstr "budget_exhausted") ∧
      (∃ reason, res.taxonomy = some ("C4", "MAJOR", reason)) ∧
      res.event.lookup "limit_hit" = some (.jstr (String.intercalate "+"
        ((if (collectGuardrailMetrics b env.base_ms).bt_depth > 60 then ["bt_depth"] else []) ++
         (if (collectGuardrailMetrics b env.base_ms).nodes > 200000 then ["nodes"] else []) ++
         (if (collectGuardrailMetrics b env.base_ms).time_ms > 2000 then ["time_ms"] else [])))) ∧
      ∀ cls, runWithShadow { task with classifier := cls } env = runWithShadow task env) := by
  have hrws := h
  unfold runWithShadow at h
  rcases hcr : task.candidate_runner with e | c
  · simp [hcr] at h
  · simp only [hcr] at h
    cases hsamp : hit task.hash_salt task.run_id task.metadata_puzzle_digest task.sample_rate
        task.sticky <;> simp only [hsamp] at h
    · simp only [Bool.false_eq_true, not_false_iff, if_true, Except.ok.injEq] at h
      subst h
      simp [skippedShadowResult] at hs
    · simp only [hbr, not_true, if_false, ite_false, Except.ok.injEq] at h
      subst h
      have hst : (sampledShadowResult task env b c).event.lookup "verdict_status" =
          some (.jstr (shadowOutcome task b c env.base_ms).2.1) := by
        rw [sampled_event]
        exact buildShadowEvent_status _ _ _ _ _ _ _ _ _ _ _
      have htx := sampled_taxonomy task env b c
      have hsev4 : taxonomySeverity "C4" = "MAJOR" := by decide
      constructor
      · rcases hgc : evaluateGuardrails (collectGuardrailMetrics b env.base_ms) with _ | g
        · rcases hcls : (task.classifier.getD classifyMismatch) b c with _ | ⟨code, reason⟩
          · left
            have ho1 : shadowOutcome task b c env.base_ms = (none, "match", "none") := by
              simp [shadowOutcome, hgc, hcls]
            rw [hst, htx, ho1]
            exact ⟨rfl, rfl⟩
          · right; left
            have ho1 : shadowOutcome task b c env.base_ms =
                (some (code, taxonomySeverity code, reason), "mismatch",
                 code ++ ":" ++ reason) := by
              simp [shadowOutcome, hgc, hcls]
            rw [hst, htx, ho1]
            exact ⟨rfl, by simp⟩
        · right; right
          have ho1 : shadowOutcome task b c env.base_ms =
              (some ("C4", "MAJOR",
                "guardrail_exceeded_" ++ String.intercalate "_" (g.limit_hit.splitOn "+")),
               "budget_exhausted", "C4:" ++ g.limit_hit) := by
            simp [shadowOutcome, hgc, hsev4]
          rw [hst, htx, ho1]
          exact ⟨rfl, _, rfl⟩
      · intro hbreach
        have hg2 := evaluateGuardrails_of_breach hbreach
        have ho1 : shadowOutcome task b c env.base_ms =
            (some ("C4", "MAJOR", "guardrail_exceeded_" ++ String.intercalate "_"
              ((String.intercalate "+"
                (sortStrings (guardrailBreaches
                  (collectGuardrailMetrics b env.base_ms)).dedup)).splitOn "+")),
             "budget_exhausted", "C4:" ++ String.intercalate "+"
               (sortStrings (guardrailBreaches
                 (collectGuardrailMetrics b env.base_ms)).dedup)) := by
          simp [shadowOutcome, hg2, hsev4]
        refine ⟨by rw [hst, ho1], ⟨_, by rw [htx, ho1]⟩, ?_, ?_⟩
        · rw [sampled_event, hg2]
          rw [buildShadowEvent_limit_hit]
          rw [sortedBreaches]
        · intro cls
          rw [← hcr]
          exact runWithShadow_classifier_irrel task env cls b hbr hbreach


attribute [local semireducible] Rat.add Rat.sub Rat.mul Rat.inv

/-- C1 counterexample: in scenario S2 the comparison is sampled, no caller
guardrail is installed, the severity is CRITICAL, `allow_fallback` holds and
the baseline result is returned — yet the emitted event has no `fallback_used`
key, contradicting the spec sentence "The event records `fallback_used`". -/
theorem shadow_fallback_counterexample :
    runWithShadow task1 envStd = .ok res1 ∧
    task1.guardrail = none ∧ task1.allow_fallback = true ∧
    res1.sampled = true ∧ res1.severity = "CRITICAL" ∧
    res1.taxonomy = some ("C1", "CRITICAL", "unique_flag_mismatch") ∧
    res1.fallback_used = true ∧ res1.returned = baseRun1 ∧
    res1.event.lookup "fallback_used" = none :=
  ⟨rfl, rfl, rfl, rfl, rfl, rfl, rfl, rfl, rfl⟩

/-- Witness for `shadow_fallback` at the scenario-S2 inputs. -/
theorem shadow_fallback_witness :
    (res1.sampled = true → res1.severity = "CRITICAL" → task1.allow_fallback = true →
      res1.fallback_used = true ∧ res1.baseline = some res1.returned) ∧
    (res1.sampled = true → ¬(res1.severity = "CRITICAL" ∧ task1.allow_fallback = true) →
      res1.fallback_used = false ∧ res1.returned = res1.candidate) ∧
    res1.event.lookup "fallback_used" = none ∧
    (∀ (w : PipelineWorld) (r : PipelineResults), (runPipeline w).2 = .ok r →
      w.finaliseVerdict = .ok r.verdict_id) :=
  shadow_fallback task1 envStd res1 rfl rfl

/-- Witness for `guardrail_supersedes` at the scenario-S4 inputs. -/
theorem guardrail_supersedes_witness :
    task5.baseline_runner = Except.ok baseRun5 ∧
    runWithShadow task5 envStd = Except.ok res5 ∧ res5.sampled = true ∧
    (((res5.event.lookup "verdict_status" = some (.jstr "match") ∧ res5.taxonomy = none) ∨
      (res5.event.lookup "verdict_status" = some (.jstr "mismatch") ∧ res5.taxonomy ≠ none) ∨
      (res5.event.lookup "verdict_status" = some (.jstr "budget_exhausted") ∧
        ∃ reason, res5.taxonomy = some ("C4", "MAJOR", reason))) ∧
     (((collectGuardrailMetrics baseRun5 envStd.base_ms).nodes > 200000 ∨
       (collectGuardrailMetrics baseRun5 envStd.base_ms).bt_depth > 60 ∨
       (collectGuardrailMetrics baseRun5 envStd.base_ms).time_ms > 2000) →
       res5.event.lookup "verdict_status" = some (.jstr "budget_exhausted") ∧
       (∃ reason, res5.taxonomy = some ("C4", "MAJOR", reason)) ∧
       res5.event.lookup "limit_hit" = some (.jstr (String.intercalate "+"
         ((if (collectGuardrailMetrics baseRun5 envStd.base_ms).bt_depth > 60
             then ["bt_depth"] else []) ++
          (if (collectGuardrailMetrics baseRun5 envStd.base_ms).nodes > 200000
             then ["nodes"] else []) ++
          (if (collectGuardrailMetrics baseRun5 envStd.base_ms).time_ms > 2000
             then ["time_ms"] else [])))) ∧
       ∀ cls, runWithShadow { task5 with classifier := cls } envStd =
         runWithShadow task5 envStd)) :=
  ⟨rfl, rfl, rfl, guardrail_supersedes task5 envStd res5 baseRun5 rfl rfl rfl⟩


theorem toList_ofList_P (l : List (String × JVal)) : JPairs.toList (JPairs.ofList l) = l := by
  induction l with
  | nil => rfl
  | cons p r ih => cases p; simp [JPairs.ofList, JPairs.toList, ih]

theorem sizeOf_pos_J (a : JVal) : 0 < sizeOf a := by
  cases a <;> simp

theorem sizeOf_mem_L : ∀ (l : JList) (x : JVal), x ∈ JList.toList l → sizeOf x < sizeOf l
  | .nil, x, hx => by simp [JList.toList] at hx
  | .cons y r, x, hx => by
    simp only [JList.toList, List.mem_cons] at hx
    rcases hx with h | h
    · subst h; simp; omega
    · have := sizeOf_mem_L r x h; simp; omega

theorem sizeOf_mem_P : ∀ (l : JPairs) (p : String × JVal),
    p ∈ JPairs.toList l → sizeOf p.2 < sizeOf l
  | .nil, p, hp => by simp [JPairs.toList] at hp
  | .cons k v r, p, hp => by
    simp only [JPairs.toList, List.mem_cons] at hp
    rcases hp with h | h
    · subst h; simp; omega
    · have := sizeOf_mem_P r p h; simp; omega

theorem normalizeP_eq_map (nfc : String → String) : ∀ (l : JPairs),
    normalizeP nfc l = (JPairs.toList l).map (fun p => (p.1, normalizeJ nfc p.2))
  | .nil => rfl
  | .cons k v r => by simp [normalizeP, JPairs.toList, normalizeP_eq_map nfc r]

theorem forall₂_imp_mem {α β : Type} {R S : α → β → Prop} :
    ∀ {as : List α} {bs : List β}, List.Forall₂ R as bs →
      (∀ x ∈ as, ∀ y, R x y → S x y) → List.Forall₂ S as bs := by
  intro as bs h
  induction h with
  | nil => intro _; exact List.Forall₂.nil
  | @cons a b as bs hab hrest ih =>
    intro himp
    exact List.Forall₂.cons (himp a (by simp) b hab)
      (ih (fun x hx y hy => himp x (by simp [hx]) y hy))

theorem map_pair_eq (g : JVal → JVal) :
    ∀ (as bs : List (String × JVal)), as.map Prod.fst = bs.map Prod.fst →
      List.Forall₂ (fun x y => g x = g y) (as.map Prod.snd) (bs.map Prod.snd) →
      as.map (fun p => (p.1, g p.2)) = bs.map (fun p => (p.1, g p.2)) := by
  intro as
  induction as with
  | nil =>
    intro bs h _
    cases bs with
    | nil => rfl
    | cons q bs => simp at h
  | cons p as ih =>
    intro bs hk hv
    cases bs with
    | nil => simp at hk
    | cons q bs =>
      simp only [List.map, List.cons.injEq] at hk hv ⊢
      cases hv with
      | cons hv1 hv2 =>
        exact ⟨by rw [Prod.ext_iff]; exact ⟨hk.1, hv1⟩, ih bs hk.2 hv2⟩

theorem normalizeL_eq_of (nfc : String → String) :
    ∀ (l m : JList), List.Forall₂ (fun x y => normalizeJ nfc x = normalizeJ nfc y)
      (JList.toList l) (JList.toList m) → normalizeL nfc l = normalizeL nfc m
  | .nil, .nil, _ => rfl
  | .nil, .cons y s, h => by simp [JList.toList] at h
  | .cons x r, .nil, h => by simp [JList.toList] at h
  | .cons x r, .cons y s, h => by
    simp only [JList.toList] at h
    cases h with
    | cons h1 h2 => simp [normalizeL, h1, normalizeL_eq_of nfc r s h2]

theorem normalizeJ_eq_of_equiv (nfc : String → String) :
    ∀ (n : Nat) (a b : JVal), sizeOf a ≤ n → JEquiv nfc a b → JWF a →
      normalizeJ nfc a = normalizeJ nfc b := by
  intro n
  induction n with
  | zero =>
    intro a b hs _ _
    have := sizeOf_pos_J a
    omega
  | succ n ih =>
    intro a b hs he hw
    cases he with
    | nullE => rfl
    | boolE b => rfl
    | intE k => rfl
    | strE hst => simp [normalizeJ, hst]
    | @arrE l m hf =>
      simp only [normalizeJ, JVal.jarr.injEq]
      apply normalizeL_eq_of
      refine forall₂_imp_mem hf ?_
      intro x hx y hr
      cases hw with
      | arrW hall =>
        refine ih x y ?_ hr (hall x hx)
        have h1 := sizeOf_mem_L _ _ hx
        simp at hs
        omega
    | @objE l m m' hperm hkeys hvals =>
      simp only [normalizeJ, JVal.jobj.injEq]
      congr 1
      rw [normalizeP_eq_map, normalizeP_eq_map]
      cases hw with
      | objW hall hnd =>
        have hstep : (JPairs.toList l).map (fun p => (p.1, normalizeJ nfc p.2)) =
            m'.map (fun p => (p.1, normalizeJ nfc p.2)) := by
          apply map_pair_eq _ _ _ hkeys
          refine forall₂_imp_mem hvals ?_
          intro x hx y hr
          rcases List.mem_map.mp hx with ⟨p, hp, rfl⟩
          refine ih p.2 y ?_ hr (hall p hp)
          have h1 := sizeOf_mem_P _ _ hp
          simp at hs
          omega
        rw [hstep]
        apply sortByKey_eq_of_perm
        · exact ((hperm.map _).symm)
        · rw [List.map_map]
          have hcomp : (Prod.fst ∘ fun p : String × JVal => (p.1, normalizeJ nfc p.2)) =
              (Prod.fst : String × JVal → String) := rfl
          rw [hcomp, ← hkeys]
          exact hnd

theorem filter_pairs_equiv {R : JVal → JVal → Prop} (P : String → Bool) :
    ∀ (as bs : List (String × JVal)), as.map Prod.fst = bs.map Prod.fst →
      List.Forall₂ R (as.map Prod.snd) (bs.map Prod.snd) →
      (as.filter (fun p => P p.1)).map Prod.fst =
        (bs.filter (fun p => P p.1)).map Prod.fst ∧
      List.Forall₂ R ((as.filter (fun p => P p.1)).map Prod.snd)
        ((bs.filter (fun p => P p.1)).map Prod.snd) := by
  intro as
  induction as with
  | nil =>
    intro bs h _
    cases bs with
    | nil => exact ⟨rfl, List.Forall₂.nil⟩
    | cons q bs => simp at h
  | cons p as ih =>
    intro bs hk hv
    cases bs with
    | nil => simp at hk
    | cons q bs =>
      simp only [List.map, List.cons.injEq] at hk hv
      cases hv with
      | cons hv1 hv2 =>
        obtain ⟨rest1, rest2⟩ := ih bs hk.2 hv2
        by_cases hp : P p.1 = true
        · have hq : P q.1 = true := by rw [← hk.1]; exact hp
          simp only [List.filter_cons, hp, hq, if_true, List.map, List.cons.injEq]
          exact ⟨⟨hk.1, rest1⟩, List.Forall₂.cons hv1 rest2⟩
        · have hq : ¬(P q.1 = true) := by rw [← hk.1]; exact hp
          simp only [List.filter_cons, hp, hq, if_false]
          exact ⟨rest1, rest2⟩

theorem JWF_filter (P : String → Bool) {l : List (String × JVal)}
    (hw : JWF (.jobj (JPairs.ofList l))) :
    JWF (.jobj (JPairs.ofList (l.filter (fun p => P p.1)))) := by
  cases hw with
  | objW hall hnd =>
    rw [toList_ofList_P] at hall hnd
    refine JWF.objW ?_ ?_
    · rw [toList_ofList_P]
      intro p hp
      exact hall p (List.mem_of_mem_filter hp)
    · rw [toList_ofList_P]
      exact List.Nodup.sublist ((List.filter_sublist l).map Prod.fst) hnd


/-- C3 (amended): `compute_artifact_id(obj)` equals `"sha256-"` followed by the
lowercase hex SHA-256 of the canonical serialization of `obj` with the
`artifact_id` field removed, never mutates its argument (the embedding is a
pure function of it), and for a well-formed mapping it returns identical
output for inputs that differ only in mapping entry order and/or in the
Unicode composition of string VALUES.  Contrary to the spec, inputs whose
KEYS differ in Unicode composition are not identified — `_normalize` applies
`unicodedata.normalize("NFC", ·)` only to strings reached as values and
passes dict keys through `str(k)` unnormalised (see the counterexample). -/
theorem artifact_id_stable (nfc : String → String) (l₁ l₂ : List (String × JVal))
    (he : JEquiv nfc (.jobj (JPairs.ofList l₁)) (.jobj (JPairs.ofList l₂)))
    (hw : JWF (.jobj (JPairs.ofList l₁))) :
    computeArtifactId nfc l₁ = computeArtifactId nfc l₂ ∧
    computeArtifactId nfc l₁ =
      "sha256-" ++ sha256hex (canonicalize nfc
        (l₁.filter (fun p => ¬(p.1 == "artifact_id")))) := by
  refine ⟨?_, rfl⟩
  have hmain : normalizeJ nfc
      (JVal.jobj (JPairs.ofList (l₁.filter (fun p => ¬(p.1 == "artifact_id"))))) =
      normalizeJ nfc
      (JVal.jobj (JPairs.ofList (l₂.filter (fun p => ¬(p.1 == "artifact_id"))))) := by
    cases he with
    | objE m' hperm hkeys hvals =>
      rw [toList_ofList_P] at hperm
      rw [toList_ofList_P] at hkeys
      rw [toList_ofList_P] at hvals
      apply normalizeJ_eq_of_equiv nfc
        (sizeOf (JVal.jobj (JPairs.ofList (l₁.filter (fun p => ¬(p.1 == "artifact_id"))))))
        _ _ le_rfl ?_ (JWF_filter (fun k => ¬(k == "artifact_id")) hw)
      obtain ⟨hkf, hvf⟩ := filter_pairs_equiv (fun k => ¬(k == "artifact_id")) l₁ m' hkeys hvals
      refine JEquiv.objE ((m'.filter (fun p => ¬(p.1 == "artifact_id")))) ?_ ?_ ?_
      · rw [toList_ofList_P]
        exact hperm.filter _
      · rw [toList_ofList_P]
        exact hkf
      · rw [toList_ofList_P]
        exact hvf
  simp only [computeArtifactId, canonicalize, hmain]

/-- C3 counterexample: two singleton mappings that are NFC-equivalent in the
spec sense — their keys are the same string up to Unicode composition
(`"e" + U+0301` versus precomposed `U+00E9`) — receive different artifact
identifiers, because `_normalize` never normalises mapping keys. -/
theorem artifact_id_key_counterexample :
    NFCKeyEquiv nfcModel (.jobj (JPairs.ofList objKeyDecomposed))
      (.jobj (JPairs.ofList objKeyComposed)) ∧
    JWF (.jobj (JPairs.ofList objKeyDecomposed)) ∧
    JWF (.jobj (JPairs.ofList objKeyComposed)) ∧
    computeArtifactId nfcModel objKeyDecomposed ≠
      computeArtifactId nfcModel objKeyComposed := by
  refine ⟨?_, ?_, ?_, by decide⟩
  · refine NFCKeyEquiv.objE [("é", .jint 1)] ?_ ?_ ?_
    · exact List.Perm.refl _
    · decide
    · exact List.Forall₂.cons (NFCKeyEquiv.intE 1) List.Forall₂.nil
  · refine JWF.objW ?_ (by decide)
    intro p hp
    have hp2 : p = ("é", JVal.jint 1) := by
      simpa [objKeyDecomposed, JPairs.ofList, JPairs.toList] using hp
    rw [hp2]
    exact JWF.intW 1
  · refine JWF.objW ?_ (by decide)
    intro p hp
    have hp2 : p = ("é", JVal.jint 1) := by
      simpa [objKeyComposed, JPairs.ofList, JPairs.toList] using hp
    rw [hp2]
    exact JWF.intW 1

/-- Witness for `artifact_id_stable`: two mappings differing in entry order
and in the composition of a string value get the same artifact id. -/
theorem artifact_id_stable_witness :
    JEquiv nfcModel (.jobj (JPairs.ofList objValDecomposed))
      (.jobj (JPairs.ofList objValComposed)) ∧
    JWF (.jobj (JPairs.ofList objValDecomposed)) ∧
    (computeArtifactId nfcModel objValDecomposed =
       computeArtifactId nfcModel objValComposed ∧
     computeArtifactId nfcModel objValDecomposed =
       "sha256-" ++ sha256hex (canonicalize nfcModel
         (objValDecomposed.filter (fun p => ¬(p.1 == "artifact_id"))))) := by
  have he : JEquiv nfcModel (.jobj (JPairs.ofList objValDecomposed))
      (.jobj (JPairs.ofList objValComposed)) := by
    refine JEquiv.objE [("alpha", .jint 7), ("beta", .jstr "é")] ?_ ?_ ?_
    · decide
    · decide
    · exact List.Forall₂.cons (JEquiv.intE 7)
        (List.Forall₂.cons (JEquiv.strE (by decide)) List.Forall₂.nil)
  have hw : JWF (.jobj (JPairs.ofList objValDecomposed)) := by
    refine JWF.objW ?_ (by decide)
    intro p hp
    have hp2 : p = ("alpha", JVal.jint 7) ∨ p = ("beta", JVal.jstr "é") := by
      simpa [objValDecomposed, JPairs.ofList, JPairs.toList] using hp
    rcases hp2 with h | h
    · rw [h]; exact JWF.intW 7
    · rw [h]; exact JWF.strW _
  exact ⟨he, hw, artifact_id_stable nfcModel objValDecomposed objValComposed he hw⟩

end Sudoku
